import Mathlib

/-!
# Verification of the seed-to-stream recommendation core

Shallow embedding of the candidate-discovery orchestrator, the multi-factor
scoring engine, the feedback personalization, and the similarity primitives
of the seed-to-stream repository (src/utils/tmdb.ts, src/utils/embeddings.ts,
src/utils/feedback.ts), together with theorems settling the frozen claims.

Modelling conventions:
* JS numbers are modelled as `ℚ` (exact rational arithmetic); the two uses of
  `Math.log10` and `Math.sqrt` force the scoring pipeline and the cosine
  similarity into `ℝ`.
* `Math.round` is round-half-toward-positive-infinity: `⌊x + 1/2⌋`.
* Every external call (fetch, localStorage, embedding service) is an oracle
  supplied through an environment record; a failed / not-ok response is `none`
  (or `[]` where the source itself maps failure to an empty list).
* String operations (`toLowerCase`, `replace`, `split`, `includes`) are
  modelled character-exactly for ASCII text, which covers all texts the
  claims touch.
-/

namespace SeedToStream

/-- tv / movie media type (src/utils/tmdb.ts, TMDBItem.media_type). -/
inductive MediaType where
  | movie : MediaType
  | tv : MediaType
deriving DecidableEq, Repr

/-- An item returned by the content directory (interface TMDBItem).
Fields irrelevant to every claim (poster/backdrop paths) carry their
type but default to `none`.  The optional provenance flags `isFallback`
and `isGoogleSourced` are booleans whose JS absence (undefined) is
falsy, hence modelled by `false`. -/
structure TMDBItem where
  id : ℚ
  title : Option String := none
  name : Option String := none
  overview : String := ""
  poster_path : Option String := none
  backdrop_path : Option String := none
  release_date : Option String := none
  first_air_date : Option String := none
  vote_average : ℚ := 0
  vote_count : ℤ := 0
  genre_ids : List ℤ := []
  media_type : MediaType
  tagline : Option String := none
  isFallback : Bool := false
  isGoogleSourced : Bool := false
  googleSnippet : Option String := none
deriving DecidableEq, Repr

/-- interface TMDBGenre. -/
structure TMDBGenre where
  id : ℤ
  name : String
deriving DecidableEq, Repr

/-- interface TMDBKeyword. -/
structure TMDBKeyword where
  id : ℤ
  name : String
deriving DecidableEq, Repr

/-- interface TMDBCredit (only the fields the scoring path reads). -/
structure TMDBCredit where
  name : String
  job : Option String := none
deriving DecidableEq, Repr

/-- interface TMDBCreditsResponse. -/
structure TMDBCreditsResponse where
  cast : List TMDBCredit
  crew : List TMDBCredit
deriving DecidableEq, Repr

/-- interface UserFeedback (src/utils/feedback.ts). -/
structure UserFeedback where
  itemId : ℚ
  mediaType : MediaType
  rating : ℚ
  timestamp : ℤ := 0
  genres : List ℤ := []
  cast : List String := []
  crew : List String := []
deriving DecidableEq, Repr

/- ---------------------------------------------------------------------
   JS string primitives (ASCII-exact models)
--------------------------------------------------------------------- -/

/-- ASCII case folding, the restriction of JS String.toLowerCase to the
texts appearing in the claims. -/
def jsLowerChar (c : Char) : Char :=
  if 'A' ≤ c ∧ c ≤ 'Z' then Char.ofNat (c.toNat + 32) else c

/-- String.toLowerCase. -/
def jsLower (s : String) : String :=
  String.mk (s.toList.map jsLowerChar)

/-- Membership in the regex class \w = [A-Za-z0-9_]. -/
def isWordChar (c : Char) : Bool :=
  ('a' ≤ c ∧ c ≤ 'z') || ('A' ≤ c ∧ c ≤ 'Z') || ('0' ≤ c ∧ c ≤ '9') || c = '_'

/-- Membership in the regex class \s (ASCII whitespace). -/
def isSpaceChar (c : Char) : Bool :=
  c = ' ' || c = '\t' || c = '\n' || c = '\r' || c = '\x0b' || c = '\x0c'

/-- One step of splitting a character list into maximal non-whitespace
runs; the accumulator holds the (reversed) current run. -/
def splitRunsAux : List Char → List Char → List (List Char)
  | [], acc => if acc = [] then [] else [acc.reverse]
  | c :: cs, acc =>
    if isSpaceChar c then
      if acc = [] then splitRunsAux cs []
      else acc.reverse :: splitRunsAux cs []
    else splitRunsAux cs (c :: acc)

/-- `s.split(/\s+/)` up to empty-string entries, which every caller in the
source discards via a minimum-length filter applied immediately after. -/
def splitWhitespace (s : String) : List String :=
  (splitRunsAux s.toList []).map String.mk

/-- JS `haystack.includes(needle)` (substring containment). -/
def includesSub (haystack needle : String) : Bool :=
  decide (List.IsInfix needle.toList haystack.toList)

/-- JS truthiness of an optional string: undefined and the empty string
are falsy. -/
def strTruthy : Option String → Bool
  | none => false
  | some s => s ≠ ""

/-- JS `a || b || ''` for two optional strings. -/
def firstTruthy (a b : Option String) : String :=
  if strTruthy a then a.getD "" else if strTruthy b then b.getD "" else ""

/-- JS Math.round, which rounds half toward positive infinity. -/
def jsRound {α : Type} [LinearOrderedField α] [FloorRing α] (x : α) : ℤ :=
  ⌊x + 1 / 2⌋

/- ---------------------------------------------------------------------
   src/utils/embeddings.ts
--------------------------------------------------------------------- -/

/-- Stop-word list shared by the lexical similarity fallbacks. -/
def shortStopWords : List String :=
  ["the", "and", "or", "but", "in", "on", "at", "to", "for", "of", "with", "by"]

/-- normalizeText (embeddings.ts, inside getKeywordSimilarity):
lowercase, replace every character outside \w and \s by a space, split
on whitespace, keep words longer than 2 letters, drop stop words. -/
def normalizeTextE (text : String) : List String :=
  let cleaned := String.mk ((jsLower text).toList.map
    (fun c => if isWordChar c || isSpaceChar c then c else ' '))
  ((splitWhitespace cleaned).filter (fun w => w.length > 2)).filter
    (fun w => ¬ shortStopWords.contains w)

/-- getKeywordSimilarity (embeddings.ts): lexical fallback similarity.
`commonWords` counts occurrences in A of words also present in B,
`uniqueWords` is the deduplicated union. -/
def getKeywordSimilarity (textA textB : String) : ℚ :=
  let wordsA := normalizeTextE textA
  let wordsB := normalizeTextE textB
  let commonWords := wordsA.filter (fun w => wordsB.contains w)
  let uniqueWords := (wordsA ++ wordsB).dedup
  if uniqueWords.length = 0 then 0
  else (commonWords.length : ℚ) / (uniqueWords.length : ℚ)

/-- cosineSimilarity (embeddings.ts): 0 on empty or mismatched lengths,
0 on a zero norm, otherwise the usual dot product over norms. -/
noncomputable def cosineSimilarity (vecA vecB : List ℝ) : ℝ :=
  if vecA.length = 0 ∨ vecB.length = 0 ∨ vecA.length ≠ vecB.length then 0
  else
    let dotProduct := (vecA.zip vecB).foldl (fun s p => s + p.1 * p.2) 0
    let normA := Real.sqrt (vecA.foldl (fun s x => s + x * x) 0)
    let normB := Real.sqrt (vecB.foldl (fun s x => s + x * x) 0)
    if normA = 0 ∨ normB = 0 then 0
    else dotProduct / (normA * normB)

/-- getSemanticSimilarity (embeddings.ts).  `embed` is the oracle for
getEmbeddings, whose source returns `[]` whenever the service is
unconfigured, fails, or errors; in that case the function falls back to
the pure lexical similarity without any further external call. -/
noncomputable def getSemanticSimilarity (embed : String → List ℝ)
    (textA textB : String) : ℝ :=
  let embeddingA := embed textA
  let embeddingB := embed textB
  if embeddingA.length = 0 ∨ embeddingB.length = 0 then
    ((getKeywordSimilarity textA textB : ℚ) : ℝ)
  else cosineSimilarity embeddingA embeddingB

/- ---------------------------------------------------------------------
   src/utils/feedback.ts
--------------------------------------------------------------------- -/

/-- Result of analyzeUserFeedback.  The JS Maps are modelled as total
weight functions with default 0 (Map.get returns undefined for absent
keys, and every consumer coerces that to "no weight"). -/
structure FeedbackAnalysis where
  preferredGenres : ℤ → ℚ
  preferredCast : String → ℚ
  preferredCrew : String → ℚ
  ratingThreshold : ℚ

/-- One Map.set step: add `r` to the weight of key `k`. -/
def bumpWeight {κ : Type} [DecidableEq κ] (m : κ → ℚ) (k : κ) (r : ℚ) : κ → ℚ :=
  fun k2 => if k2 = k then m k2 + r else m k2

/-- The forEach accumulation of analyzeUserFeedback: for every record at
or above the threshold, add its rating to the weight of every key it
touched (with multiplicity, as the source loops over the raw list). -/
def accumulateWeights {κ : Type} [DecidableEq κ] (threshold : ℚ)
    (keysOf : UserFeedback → List κ) (feedback : List UserFeedback) : κ → ℚ :=
  feedback.foldl
    (fun m f =>
      if threshold ≤ f.rating then (keysOf f).foldl (fun m2 k => bumpWeight m2 k f.rating) m
      else m)
    (fun _ => 0)

/-- analyzeUserFeedback (feedback.ts): derive per-genre / per-person
preference weights from the stored ratings; only records rated at least
3.5 count.  `feedback` is the oracle for the localStorage read. -/
def analyzeUserFeedback (feedback : List UserFeedback) : FeedbackAnalysis :=
  { preferredGenres := accumulateWeights (7/2) (fun f => f.genres) feedback
    preferredCast := accumulateWeights (7/2) (fun f => f.cast) feedback
    preferredCrew := accumulateWeights (7/2) (fun f => f.crew) feedback
    ratingThreshold := 7/2 }

/-- calculateFeedbackBoost (feedback.ts): genre-preference boost, each
genre capped at 10 points, total capped at 20.  The JS truthiness test
on Map.get is modelled as a nonzero test (absent keys have weight 0). -/
def calculateFeedbackBoost (candidate : TMDBItem) (analysis : FeedbackAnalysis) : ℚ :=
  let boost := candidate.genre_ids.foldl
    (fun b genreId =>
      let genreWeight := analysis.preferredGenres genreId
      if genreWeight ≠ 0 then b + min 10 (genreWeight * (1/2)) else b)
    0
  min 20 boost

/-- getRecommendationBoost (feedback.ts). -/
def getRecommendationBoost (feedback : List UserFeedback) (candidate : TMDBItem) : ℚ :=
  calculateFeedbackBoost candidate (analyzeUserFeedback feedback)

/- ---------------------------------------------------------------------
   src/utils/tmdb.ts — pure scoring helpers
--------------------------------------------------------------------- -/

/-- The fixed rarity lookup table of calculateGenreRarityWeights; keys
absent from the literal fall back to 1.0 just as rarityMap[id] || 1.0
does. -/
def genreRarityMap (genreId : ℤ) : ℚ :=
  if genreId = 10770 then 2 else
  if genreId = 10752 then 9/5 else
  if genreId = 99 then 8/5 else
  if genreId = 10751 then 3/2 else
  if genreId = 16 then 7/5 else
  if genreId = 37 then 13/10 else
  if genreId = 10402 then 6/5 else
  if genreId = 10749 then 11/10 else 1

/-- calculateGenreRarityWeights (tmdb.ts): the returned Map holds an
entry for every seed genre; lookups of other genres yield undefined,
which every consumer coerces to 1.0, so the model is total.  The
`allGenres` argument only seeds an unused frequency counter. -/
def calculateGenreRarityWeights (allGenres : List TMDBGenre) (seedGenres : List ℤ) :
    ℤ → ℚ :=
  fun genreId => if seedGenres.contains genreId then genreRarityMap genreId else 1

/-- calculateGenreScore (tmdb.ts).  The common-genre display names feed
only the justification string, which is not modelled. -/
def calculateGenreScore (seedGenres candidateGenres : List ℤ)
    (rarityWeights : ℤ → ℚ) : ℚ :=
  let commonGenres := candidateGenres.filter (fun g => seedGenres.contains g)
  if commonGenres.length = 0 then 0
  else
    let totalWeight := commonGenres.foldl (fun s g => s + rarityWeights g) 0
    let avgWeight := totalWeight / (commonGenres.length : ℚ)
    let baseScore := ((commonGenres.length : ℚ) / (max (seedGenres.length : ℚ) 1)) * 80
    let rarityBonus := min 30 (avgWeight * 15)
    let multipleGenreBonus : ℚ := if commonGenres.length > 1 then 15 else 0
    let diversityBonus := min 15 ((commonGenres.length : ℚ) * 3)
    let perfectMatchBonus : ℚ := if commonGenres.length = seedGenres.length then 10 else 0
    min 150 (baseScore + rarityBonus + multipleGenreBonus + diversityBonus + perfectMatchBonus)

/-- The five tone classes; `thriller` is carried along because the
source compares against the literal string although the classifier
never produces it. -/
inductive Tone where
  | serious | light | action | mystery | thriller | neutral
deriving DecidableEq, Repr

def seriousTones : List String :=
  ["dark", "gritty", "serious", "dramatic", "intense", "violent", "crime",
   "murder", "corruption", "politics", "social", "realistic"]

def lightTones : List String :=
  ["funny", "comedy", "light", "cheerful", "family", "feel-good", "romantic",
   "adventure", "fantasy", "magical"]

def actionTones : List String :=
  ["action", "thriller", "suspense", "adventure", "war", "fighting", "chase",
   "explosion"]

def mysteryTones : List String :=
  ["mystery", "suspense", "thriller", "investigation", "detective", "clue",
   "puzzle"]

/-- The first-match tone classification inside calculateToneScore. -/
def classifyTone (text : String) : Tone :=
  if seriousTones.any (fun t => includesSub text t) then .serious
  else if lightTones.any (fun t => includesSub text t) then .light
  else if actionTones.any (fun t => includesSub text t) then .action
  else if mysteryTones.any (fun t => includesSub text t) then .mystery
  else .neutral

/-- calculateToneScore (tmdb.ts): 20 for equal tones, 15 for the
serious/mystery (and the unreachable action/thriller) cross pairs,
10 for light/light (dead: subsumed by equality), else 0. -/
def calculateToneScore (seedItem candidateItem : TMDBItem) : ℚ :=
  let seedText := jsLower (seedItem.overview ++ " " ++ seedItem.tagline.getD "")
  let candidateText := jsLower candidateItem.overview
  let seedTone := classifyTone seedText
  let candidateTone := classifyTone candidateText
  if seedTone = candidateTone then 20
  else if (seedTone = .serious ∧ candidateTone = .mystery) ∨
          (seedTone = .mystery ∧ candidateTone = .serious) then 15
  else if (seedTone = .action ∧ candidateTone = .thriller) ∨
          (seedTone = .thriller ∧ candidateTone = .action) then 15
  else if seedTone = .light ∧ candidateTone = .light then 10
  else 0

/-- The key-people set of one credits response: top-10 billed cast plus
director/writer/screenplay crew (a JS Set of names; deduplication only
affects multiplicity, never the resulting score). -/
def keyPeopleOf (credits : TMDBCreditsResponse) : List String :=
  ((credits.cast.take 10).map (fun p => p.name) ++
    (credits.crew.filter
      (fun p => ["Director", "Writer", "Screenplay"].contains (p.job.getD ""))).map
      (fun p => p.name)).dedup

/-- calculateCastCrewScore (tmdb.ts), applied to the already-fetched
credits responses (`none` models a failed fetch, scored 0): 15 per
shared both-sides director, else 10 per shared writer, else 5 per
actor, clamped to 40. -/
def calculateCastCrewScore (seedCredits candidateCredits : Option TMDBCreditsResponse) : ℚ :=
  match seedCredits, candidateCredits with
  | some sc, some cc =>
    let seedKeyPeople := keyPeopleOf sc
    let candidateKeyPeople := keyPeopleOf cc
    let commonPeople := seedKeyPeople.filter (fun n => candidateKeyPeople.contains n)
    if commonPeople.length = 0 then 0
    else
      let score := commonPeople.foldl
        (fun s name =>
          let isDirector :=
            sc.crew.any (fun p => p.name = name ∧ p.job = some "Director") ∧
            cc.crew.any (fun p => p.name = name ∧ p.job = some "Director")
          let isWriter :=
            sc.crew.any (fun p => p.name = name ∧
              ["Writer", "Screenplay"].contains (p.job.getD "")) ∧
            cc.crew.any (fun p => p.name = name ∧
              ["Writer", "Screenplay"].contains (p.job.getD ""))
          if isDirector then s + 15 else if isWriter then s + 10 else s + 5)
        0
      min 40 score
  | _, _ => 0

/-- calculateKeywordSimilarityScore (tmdb.ts), applied to the two
already-fetched keyword lists (a failed fetch yields `[]` and scores
0 through the emptiness check, matching the catch branch).
NOTE (source line 943): the union set is built from the lowercased seed
keyword *names* spread together with the raw candidate keyword
*objects*; parsed JSON objects are reference-distinct, so the set size
is the distinct-seed-name count plus the candidate entry count — not
the size of the union of the two name sets. -/
def calculateKeywordSimilarityScore (seedKeywords candidateKeywords : List TMDBKeyword) : ℤ :=
  if seedKeywords.length = 0 ∨ candidateKeywords.length = 0 then 0
  else
    let seedKeywordNames := (seedKeywords.map (fun k => jsLower k.name)).dedup
    let candidateKeywordNames := (candidateKeywords.map (fun k => jsLower k.name)).dedup
    let commonKeywords := seedKeywordNames.filter (fun n => candidateKeywordNames.contains n)
    if commonKeywords.length = 0 then 0
    else
      let totalKeywordsSize := seedKeywordNames.length + candidateKeywords.length
      let overlapRatio := (commonKeywords.length : ℚ) / (totalKeywordsSize : ℚ)
      let baseScore := overlapRatio * 25
      let multipleKeywordBonus := min 8 ((commonKeywords.length : ℚ) * (3/2))
      let rareKeywordBonus := min 8 ((commonKeywords.length : ℚ) * 1)
      let perfectMatchBonus : ℚ :=
        if commonKeywords.length = min seedKeywords.length candidateKeywords.length then 4 else 0
      jsRound (min 45 (baseScore + multipleKeywordBonus + rareKeywordBonus + perfectMatchBonus))

/-- The TMDB-keyword-overlap bonus inside calculateTextSimilarity
(tmdb.ts lines 843-855) — here the union really is the union of the two
lowercased name sets. -/
def keywordOverlapBonus (seedKeywords candidateKeywords : List TMDBKeyword) : ℚ :=
  if seedKeywords.length > 0 ∧ candidateKeywords.length > 0 then
    let seedKeywordNames := (seedKeywords.map (fun k => jsLower k.name)).dedup
    let candidateKeywordNames := (candidateKeywords.map (fun k => jsLower k.name)).dedup
    let commonKeywords := seedKeywordNames.filter (fun n => candidateKeywordNames.contains n)
    let totalKeywords := (seedKeywordNames ++ candidateKeywordNames).dedup
    if totalKeywords.length > 0 then
      min (3/20) ((commonKeywords.length : ℚ) / (totalKeywords.length : ℚ) * (3/20))
    else 0
  else 0

/- ---------------------------------------------------------------------
   src/utils/tmdb.ts — scoring engine
--------------------------------------------------------------------- -/

/-- Oracle environment for one scoring run: the responses of the
external collaborators the per-item scoring path awaits.  `keywords`
and `credits` are keyed by (id, media type) exactly like the endpoints;
a failed keyword fetch is `[]` and a failed credits fetch is `none`,
which is what the source's own catch handlers return.  `throws item`
models the per-item catch-all firing for that candidate. -/
structure ScoreEnv where
  embed : String → List ℝ
  keywords : ℚ → MediaType → List TMDBKeyword
  credits : ℚ → MediaType → Option TMDBCreditsResponse
  feedback : List UserFeedback
  throws : TMDBItem → Bool

/-- calculateTextSimilarity (tmdb.ts): semantic similarity of the seed
text (overview, plus tagline when truthy) against the candidate
overview, plus a capped tagline-pair bonus and a capped curated-keyword
overlap bonus, the sum clamped above by 1.  (The catch fallback to the
lexical calculateKeywordSimilarity is unreachable: every awaited callee
catches its own errors.) -/
noncomputable def calculateTextSimilarity (env : ScoreEnv)
    (seedItem candidateItem : TMDBItem) : ℝ :=
  let seedText := if strTruthy seedItem.tagline then
    seedItem.overview ++ " " ++ seedItem.tagline.getD "" else seedItem.overview
  let candidateText := candidateItem.overview
  let similarity := getSemanticSimilarity env.embed seedText candidateText
  let taglineBonus : ℝ :=
    if strTruthy seedItem.tagline ∧ strTruthy candidateItem.tagline then
      min (1/10)
        (getSemanticSimilarity env.embed (seedItem.tagline.getD "")
          (candidateItem.tagline.getD "") * (1/10))
    else 0
  let keywordBonus : ℝ :=
    ((keywordOverlapBonus (env.keywords seedItem.id seedItem.media_type)
      (env.keywords candidateItem.id candidateItem.media_type) : ℚ) : ℝ)
  min 1 (similarity + taglineBonus + keywordBonus)

/-- Sub-score 1 of scoreRecommendations: the genre score of a candidate
against the seed, with the rarity weights derived from the seed. -/
def genreScorePart (genres : List TMDBGenre) (seedItem item : TMDBItem) : ℚ :=
  calculateGenreScore seedItem.genre_ids item.genre_ids
    (calculateGenreRarityWeights genres seedItem.genre_ids)

/-- Sub-score 2: normalized rating times 15 plus the vote-count
reliability bonus min(5, log10(max(1, votes)) * 1.5). -/
noncomputable def ratingScorePart (item : TMDBItem) : ℝ :=
  let normalizedRating := max 0 (min 1 (((item.vote_average : ℝ) - 1) / 9))
  let ratingScore := normalizedRating * 15
  let voteReliabilityBonus :=
    min 5 (Real.logb 10 (max 1 (item.vote_count : ℝ)) * (3/2))
  ratingScore + voteReliabilityBonus

/-- Sub-score 4: cast/crew overlap, from the credits oracle. -/
def castCrewScorePart (env : ScoreEnv) (seedItem item : TMDBItem) : ℚ :=
  calculateCastCrewScore (env.credits seedItem.id seedItem.media_type)
    (env.credits item.id item.media_type)

/-- Sub-score 5: popularity, min(1, log10(max(1, votes)) / 5) * 10. -/
noncomputable def popularityScorePart (item : TMDBItem) : ℝ :=
  min 1 (Real.logb 10 (max 1 (item.vote_count : ℝ)) / 5) * 10

/-- Sub-score 7: feedback boost, from the stored-feedback oracle. -/
def feedbackBoostPart (env : ScoreEnv) (item : TMDBItem) : ℚ :=
  getRecommendationBoost env.feedback item

/-- Sub-score 8: curated-keyword similarity, from the keywords oracle. -/
def keywordScorePart (env : ScoreEnv) (seedItem item : TMDBItem) : ℤ :=
  calculateKeywordSimilarityScore (env.keywords seedItem.id seedItem.media_type)
    (env.keywords item.id item.media_type)

/-- The running total of the normal (non-throwing) per-item scoring
path of scoreRecommendations, before the final min(120, ·) clamp and
Math.round: genre score, then the fallback penalty (subtract 40, floor
0), then the Google diversity boost (add 5, cap 120), then the seven
remaining additive sub-scores. -/
noncomputable def normalTotal (env : ScoreEnv) (genres : List TMDBGenre)
    (seedItem item : TMDBItem) : ℝ :=
  let t0 : ℝ := (genreScorePart genres seedItem item : ℝ)
  let t1 := if item.isFallback then max 0 (t0 - 40) else t0
  let t2 := if item.isGoogleSourced then min 120 (t1 + 5) else t1
  let t3 := t2 + ratingScorePart item
  let t4 := t3 + calculateTextSimilarity env seedItem item * 25
  let t5 := t4 + (castCrewScorePart env seedItem item : ℝ)
  let t6 := t5 + popularityScorePart item
  let t7 := t6 + (calculateToneScore seedItem item : ℝ)
  let t8 := t7 + (feedbackBoostPart env item : ℝ)
  t8 + (keywordScorePart env seedItem item : ℝ)

/-- The eight-way score breakdown attached to every recommendation
(interface ScoredRecommendation.scoreBreakdown). -/
structure ScoreBreakdown where
  genreScore : ℤ
  ratingScore : ℤ
  descriptionScore : ℤ
  castCrewScore : ℤ
  popularityScore : ℤ
  toneScore : ℤ
  keywordScore : ℤ
deriving DecidableEq, Repr

/-- interface ScoredRecommendation: the spread candidate item plus the
total score and the breakdown.  The human-readable justification string
is not modelled (no claim mentions it). -/
structure ScoredRecommendation where
  item : TMDBItem
  score : ℤ
  scoreBreakdown : ScoreBreakdown
deriving DecidableEq, Repr

/-- The per-item body of scoreRecommendations: the try branch computes
the clamped, rounded composite score; the catch branch (modelled by the
`throws` oracle) pushes the minimal fallback entry whose score is
round((vote_average / 10) * 50) and whose breakdown carries that same
value as ratingScore and 0 everywhere else. -/
noncomputable def scoreOne (env : ScoreEnv) (seedItem : TMDBItem)
    (genres : List TMDBGenre) (item : TMDBItem) : ScoredRecommendation :=
  if env.throws item then
    let fallbackScore := jsRound (item.vote_average / 10 * 50)
    { item := item
      score := fallbackScore
      scoreBreakdown :=
        { genreScore := 0, ratingScore := fallbackScore, descriptionScore := 0
          castCrewScore := 0, popularityScore := 0, toneScore := 0, keywordScore := 0 } }
  else
    let totalScore := min 120 (normalTotal env genres seedItem item)
    { item := item
      score := jsRound totalScore
      scoreBreakdown :=
        { genreScore := jsRound (genreScorePart genres seedItem item)
          ratingScore := jsRound (ratingScorePart item)
          descriptionScore := jsRound (calculateTextSimilarity env seedItem item * 25)
          castCrewScore := jsRound (castCrewScorePart env seedItem item)
          popularityScore := jsRound (popularityScorePart item)
          toneScore := jsRound (calculateToneScore seedItem item)
          keywordScore := keywordScorePart env seedItem item } }

/-- The descending comparison of the final `.sort((a, b) => b.score - a.score)`:
`a` may stay before `b` exactly when the comparator is nonpositive. -/
def scoreDescLE (a b : ScoredRecommendation) : Bool :=
  decide (b.score ≤ a.score)

/-- scoreRecommendations (tmdb.ts): score every candidate in input
order (the for-loop pushes exactly one entry per candidate, falling
back on failure), then sort descending by total score with the
stable JS Array.prototype.sort. -/
noncomputable def scoreRecommendations (env : ScoreEnv) (seedItem : TMDBItem)
    (recommendations : List TMDBItem) (genres : List TMDBGenre) :
    List ScoredRecommendation :=
  (recommendations.map (scoreOne env seedItem genres)).mergeSort scoreDescLE

/- ---------------------------------------------------------------------
   src/utils/tmdb.ts — candidate filter and discovery orchestrator
--------------------------------------------------------------------- -/

/-- The year new Date(s).getFullYear() extracts from an ISO-format date
string (the only format TMDB emits): the leading four digits; anything
else parses as an invalid date (NaN year). -/
def parseYear (s : String) : Option ℤ :=
  let digits := s.toList.takeWhile Char.isDigit
  if digits.length = 4 then
    some (digits.foldl (fun n c => n * 10 + ((c.toNat : ℤ) - 48)) 0)
  else none

/-- getReleaseYear followed by the callers' parseInt: the numeric
release year, or `none` where the source obtains NaN (missing or empty
date, unparseable date). -/
def releaseYearOf (item : TMDBItem) : Option ℤ :=
  if strTruthy item.release_date then parseYear (item.release_date.getD "")
  else if strTruthy item.first_air_date then parseYear (item.first_air_date.getD "")
  else none

/-- hasGenreOverlap (tmdb.ts). -/
def hasGenreOverlap (seedGenres candidateGenres : List ℤ) : Bool :=
  seedGenres.any (fun genreId => candidateGenres.contains genreId)

/-- The option record of filterAndPreprocessCandidates. -/
structure FilterOptions where
  minRating : ℚ
  minVoteCount : ℤ
  maxAge : ℤ
  requireGenreMatch : Bool

/-- filterAndPreprocessCandidates (tmdb.ts): drop low-rated items,
thin-vote items, items verifiably older than maxAge (an unparseable
date never rejects), and — when required — items without a shared
genre. -/
def filterAndPreprocessCandidates (candidates : List TMDBItem) (seedItem : TMDBItem)
    (opts : FilterOptions) (currentYear : ℤ) : List TMDBItem :=
  candidates.filter (fun candidate =>
    if candidate.vote_average < opts.minRating then false
    else if candidate.vote_count < opts.minVoteCount then false
    else if (match releaseYearOf candidate with
             | some y => decide (currentYear - y > opts.maxAge)
             | none => false) then false
    else if opts.requireGenreMatch ∧
            ¬ hasGenreOverlap seedItem.genre_ids candidate.genre_ids then false
    else true)

/-- The client-side part of searchByKeywords (tmdb.ts): given the raw
discover response (`none` models a failed fetch, mapped to `[]` by the
catch), keep items at or above the rating floor whose release year
parses and is within maxAge, then cap.  The keyword ids and the vote
floor travel in the request URL and constrain only the oracle. -/
def searchByKeywords (response : Option (List TMDBItem)) (minRating : ℚ)
    (maxAge : ℤ) (limit : ℕ) (currentYear : ℤ) : List TMDBItem :=
  match response with
  | none => []
  | some results =>
    ((results.filter (fun item => minRating ≤ item.vote_average)).filter
      (fun item =>
        match releaseYearOf item with
        | some y => currentYear - y ≤ maxAge
        | none => false)).take limit

/-- The stop-word set of extractKeywords (tmdb.ts). -/
def extractStopWords : List String :=
  ["the", "and", "or", "but", "in", "on", "at", "to", "for", "of", "with", "by",
   "a", "an", "is", "are", "was", "were", "be", "been", "being", "have", "has",
   "had", "do", "does", "did", "will", "would", "could", "should", "may", "might",
   "this", "that", "these", "those", "i", "you", "he", "she", "it", "we", "they",
   "me", "him", "her", "us", "them", "my", "your", "his", "its", "our", "their"]

/-- extractKeywords (tmdb.ts): lowercase title+overview, strip
punctuation, keep alphabetic non-stop-words longer than 3 letters, and
return the 5 most frequent (stable sort: ties keep first-occurrence
order, mirroring Map insertion order). -/
def extractKeywords (item : TMDBItem) : List String :=
  let text := jsLower (firstTruthy item.title item.name ++ " " ++ item.overview)
  let cleaned := String.mk (text.toList.map
    (fun c => if isWordChar c || isSpaceChar c then c else ' '))
  let words := ((splitWhitespace cleaned).filter
      (fun w => w.length > 3 ∧ ¬ extractStopWords.contains w)).filter
    (fun w => w.toList ≠ [] ∧ w.toList.all
      (fun c => ('a' ≤ c ∧ c ≤ 'z') ∨ ('A' ≤ c ∧ c ≤ 'Z')))
  let uniqueWords := words.foldl
    (fun acc w => if acc.contains w then acc else acc ++ [w]) []
  (uniqueWords.mergeSort (fun a b => decide (words.count b ≤ words.count a))).take 5

/-- The final duplicate removal of getIntelligentRecommendations:
keep an entry exactly when its own index is the first index carrying
its id (filter((item, index, self) => self.findIndex(t => t.id === item.id) === index)). -/
def dedupById (l : List TMDBItem) : List TMDBItem :=
  (l.enum.filter (fun p => l.findIdx (fun t => t.id == p.2.id) = p.1)).map
    (fun p => p.2)

/-- Oracle environment for one discovery run: the response of every
external call getIntelligentRecommendations awaits, in strategy order.
`none` models a not-ok/failed response wherever the source checks
response.ok or catches; keyword fetches degrade to `[]` inside their
own client.  `personWorksResponse` maps a person name to the cast list
of that person's combined credits (`none` when the person search, its
results, or the credits fetch fail).  `googleItems` holds the outcomes
of convertGoogleResultToTMDBItem for the retrieved search results
(`none` entries model failed conversions, dropped by filter(Boolean));
it is `[]` when the web search itself fails or returns nothing. -/
structure DiscoveryEnv where
  currentYear : ℤ
  similarResponse : Option (List TMDBItem)
  genreResponse : ℤ → Option (List TMDBItem)
  titleSearchResponse : String → Option (List TMDBItem)
  seedTmdbKeywords : List TMDBKeyword
  keywordDiscoverResponse : Option (List TMDBItem)
  seedCredits : Option TMDBCreditsResponse
  personWorksResponse : String → Option (List TMDBItem)
  googleEnabled : Bool
  googleItems : List (Option TMDBItem)
  fallbackResponse : Option (List TMDBItem)

/-- The sequential per-person loop of strategy 4 (cast/crew): the
seen-set evolves between persons, works of the wrong media type or
already seen are skipped before the quality filter, and only the items
surviving the filter enter the seen-set. -/
def strategy4Fold (env : DiscoveryEnv) (seedItem : TMDBItem) (people : List String)
    (state : List TMDBItem × List ℚ) : List TMDBItem × List ℚ :=
  people.foldl
    (fun st person =>
      match env.personWorksResponse person with
      | none => st
      | some castList =>
        let personWorks := (castList.filter
          (fun i => i.media_type = seedItem.media_type ∧ ¬ st.2.contains i.id)).take 5
        let filteredWorks := filterAndPreprocessCandidates personWorks seedItem
          ⟨6, 100, 50, false⟩ env.currentYear
        (st.1 ++ filteredWorks, st.2 ++ filteredWorks.map (fun i => i.id)))
    state

/-- The strategy phase of getIntelligentRecommendations (tmdb.ts): run
the six discovery strategies in order against a running seen-set seeded
with the seed id (the per-strategy concurrent sub-queries all read the
seen-set as it stood when the strategy started), then fill up via the
unfiltered similar fallback when fewer than 10 candidates survive. -/
def gatherCandidates (env : DiscoveryEnv) (seedItem : TMDBItem) :
    List TMDBItem :=
  let seen0 : List ℚ := [seedItem.id]
  -- Strategy 1: similar content, aggressively filtered
  let s1 := match env.similarResponse with
    | some results =>
      ((filterAndPreprocessCandidates results seedItem ⟨6, 100, 50, true⟩
        env.currentYear).filter (fun i => ¬ seen0.contains i.id)).take 20
    | none => []
  let recs1 := s1
  let seen1 := seen0 ++ s1.map (fun i => i.id)
  -- Strategy 2: discover by each of the first two seed genres
  let genreLists := (seedItem.genre_ids.take 2).map (fun genreId =>
    match env.genreResponse genreId with
    | some results =>
      (filterAndPreprocessCandidates results seedItem ⟨13/2, 200, 40, true⟩
        env.currentYear).filter (fun i => ¬ seen1.contains i.id)
    | none => [])
  let s2 := genreLists.flatten.take 15
  let recs2 := recs1 ++ s2
  let seen2 := seen1 ++ s2.map (fun i => i.id)
  -- Strategy 3: title search by extracted lexical keywords
  let keywords := extractKeywords seedItem
  let keywordLists := (keywords.take 3).map (fun kw =>
    match env.titleSearchResponse kw with
    | some results =>
      (filterAndPreprocessCandidates results seedItem ⟨6, 150, 45, true⟩
        env.currentYear).filter (fun i => ¬ seen2.contains i.id)
    | none => [])
  let s3 := keywordLists.flatten.take 10
  let recs3 := recs2 ++ s3
  let seen3 := seen2 ++ s3.map (fun i => i.id)
  -- Strategy 3.5: discover by the seed's curated keywords
  let s35 := if env.seedTmdbKeywords.length > 0 then
      ((searchByKeywords env.keywordDiscoverResponse (13/2) 40 12
        env.currentYear).filter (fun i => ¬ seen3.contains i.id)).filter
        (fun i => hasGenreOverlap seedItem.genre_ids i.genre_ids)
    else []
  let recs35 := recs3 ++ s35
  let seen35 := seen3 ++ s35.map (fun i => i.id)
  -- Strategy 4: works of up to three key cast/crew people
  let peopleState : List TMDBItem × List ℚ := match env.seedCredits with
    | none => (recs35, seen35)
    | some credits =>
      let keyPeople := (credits.cast.take 5).map (fun p => p.name)
      let crewPeople := ((credits.crew.filter
        (fun p => ["Director", "Writer", "Creator"].contains (p.job.getD ""))).take 3).map
        (fun p => p.name)
      strategy4Fold env seedItem ((keyPeople ++ crewPeople).take 3) (recs35, seen35)
  let recs4 := peopleState.1
  let seen4 := peopleState.2
  -- Strategy 5: Google web search (when configured)
  let seedTitle := firstTruthy seedItem.title seedItem.name
  let s5 := if seedTitle ≠ "" ∧ env.googleEnabled then
      let validGoogleItems := (env.googleItems.take 8).filterMap id
      let uniqueGoogleItems := validGoogleItems.filter (fun i => ¬ seen4.contains i.id)
      filterAndPreprocessCandidates uniqueGoogleItems seedItem ⟨11/2, 50, 60, false⟩
        env.currentYear
    else []
  let recs5 := recs4 ++ s5
  let seen5 := seen4 ++ s5.map (fun i => i.id)
  -- Fallback guarantee: refill from the unfiltered similar lookup
  if recs5.length < 10 then
    match env.fallbackResponse with
    | some results =>
      let fallbackItems := (results.filter (fun i => ¬ seen5.contains i.id)).take
        (20 - recs5.length)
      recs5 ++ fallbackItems.map (fun i => { i with isFallback := true })
    | none => recs5
  else recs5

/-- The final stanza of getIntelligentRecommendations: remove duplicate
ids (first seen wins), force every media type to the seed's, and cap
the list at MAX_RECOMMENDATIONS = 50. -/
def finalizeRecommendations (seedItem : TMDBItem) (recommendations : List TMDBItem) :
    List TMDBItem :=
  ((dedupById recommendations).map
    (fun i => { i with media_type := seedItem.media_type })).take 50

/-- getIntelligentRecommendations (tmdb.ts): the strategy phase
followed by the dedup / media-type / cap stanza. -/
def getIntelligentRecommendations (env : DiscoveryEnv) (seedItem : TMDBItem) :
    List TMDBItem :=
  finalizeRecommendations seedItem (gatherCandidates env seedItem)

/- ---------------------------------------------------------------------
   Helper lemmas
--------------------------------------------------------------------- -/

lemma bumpWeight_fold_apply {κ : Type} [DecidableEq κ] (keys : List κ)
    (m : κ → ℚ) (r : ℚ) (k : κ) :
    (keys.foldl (fun m2 k2 => bumpWeight m2 k2 r) m) k = m k + r * keys.count k := by
  induction keys generalizing m with
  | nil => simp
  | cons a as ih =>
    by_cases h : k = a
    · subst h
      simp [List.foldl_cons, ih, bumpWeight, List.count_cons]
      ring
    · have h2 : ¬ a = k := fun e => h e.symm
      simp [List.foldl_cons, ih, bumpWeight, List.count_cons, h, h2]

lemma accumulateWeights_apply {κ : Type} [DecidableEq κ] (threshold : ℚ)
    (keysOf : UserFeedback → List κ) (feedback : List UserFeedback) (k : κ) :
    accumulateWeights threshold keysOf feedback k =
      ((feedback.filter (fun f => threshold ≤ f.rating)).map
        (fun f => f.rating * ((keysOf f).count k : ℚ))).sum := by
  suffices h : ∀ m : κ → ℚ,
      (feedback.foldl
        (fun m f => if threshold ≤ f.rating then
          (keysOf f).foldl (fun m2 k2 => bumpWeight m2 k2 f.rating) m else m) m) k =
      m k + ((feedback.filter (fun f => threshold ≤ f.rating)).map
        (fun f => f.rating * ((keysOf f).count k : ℚ))).sum by
    simpa [accumulateWeights] using h (fun _ => 0)
  induction feedback with
  | nil => simp
  | cons f fs ih =>
    intro m
    by_cases hf : threshold ≤ f.rating
    · simp [List.foldl_cons, hf, ih, bumpWeight_fold_apply]
      ring
    · simp [List.foldl_cons, hf, ih]

lemma dedupById_ids_nodup (l : List TMDBItem) :
    ((dedupById l).map (fun i => i.id)).Nodup := by
  unfold dedupById
  rw [List.map_map]
  apply List.pairwise_map.mpr
  have hsub : (l.enum.filter
      (fun p => l.findIdx (fun t => t.id == p.2.id) = p.1)).Sublist l.enum :=
    List.filter_sublist _
  have hfst : ((l.enum.filter
      (fun p => l.findIdx (fun t => t.id == p.2.id) = p.1)).map Prod.fst).Nodup :=
    (hsub.map Prod.fst).nodup (List.nodup_enum_map_fst l)
  have hp := List.pairwise_map.mp hfst
  refine List.Pairwise.imp_of_mem ?_ hp
  intro a b ha hb hab
  simp only [Function.comp_apply, ne_eq]
  intro hid
  have ha2 := List.of_mem_filter ha
  have hb2 := List.of_mem_filter hb
  simp only [decide_eq_true_eq] at ha2 hb2
  apply hab
  rw [← ha2, ← hb2, hid]

lemma mem_of_mem_dedupById {l : List TMDBItem} {x : TMDBItem}
    (h : x ∈ dedupById l) : x ∈ l := by
  simp only [dedupById, List.mem_map] at h
  obtain ⟨p, hp, rfl⟩ := h
  exact List.get?_mem (List.mem_enum_iff_get?.mp (List.mem_of_mem_filter hp))

lemma dedupById_eq_self {l : List TMDBItem}
    (h : (l.map (fun i => i.id)).Nodup) : dedupById l = l := by
  unfold dedupById
  have hall : ∀ p ∈ l.enum,
      (decide (l.findIdx (fun t => t.id == p.2.id) = p.1)) = true := by
    intro p hp
    have hg := List.mem_enum_iff_get?.mp hp
    have hlt : p.1 < l.length := by
      by_contra hge
      rw [List.get?_eq_none.mpr (Nat.le_of_not_lt hge)] at hg
      exact Option.noConfusion hg
    have hge : l.get ⟨p.1, hlt⟩ = p.2 := by
      have := List.get?_eq_get hlt
      rw [this] at hg
      exact Option.some.inj hg
    rw [decide_eq_true_eq]
    rw [List.findIdx_eq hlt]
    constructor
    · have : l[p.1] = p.2 := hge
      rw [this, beq_self_eq_true]
    · intro j hji
      by_contra hbeq
      rw [Bool.not_eq_false, beq_iff_eq] at hbeq
      have hjlt : j < l.length := Nat.lt_trans hji hlt
      have hjm : j < (l.map (fun i => i.id)).length := by simpa using hjlt
      have hpm : p.1 < (l.map (fun i => i.id)).length := by simpa using hlt
      have hmap : (l.map (fun i => i.id))[j] = (l.map (fun i => i.id))[p.1] := by
        simp only [List.getElem_map]
        have : l[p.1] = p.2 := hge
        rw [this, hbeq]
      have := (h.getElem_inj_iff).mp hmap
      omega
  rw [List.filter_eq_self.mpr hall, List.enum_eq_enumFrom, List.enumFrom_map_snd]

/- ---------------------------------------------------------------------
   C6 — feedback aggregation and the Horror scenario
--------------------------------------------------------------------- -/

/-- A first 5-star Horror (TMDB genre 27) feedback record. -/
def horrorRecord1 : UserFeedback :=
  { itemId := 1, mediaType := .movie, rating := 5, genres := [27] }

/-- A second 5-star Horror feedback record. -/
def horrorRecord2 : UserFeedback :=
  { itemId := 2, mediaType := .movie, rating := 5, genres := [27] }

/-- A new Horror candidate. -/
def horrorCandidate : TMDBItem :=
  { id := 3, media_type := .movie, genre_ids := [27] }

/-- C6: the feedback aggregation counts exactly the records rated at
least 3.5 and adds each qualifying record's rating to the weight of
every genre, cast member and crew member it touched (once per
occurrence); in particular two 5-star Horror records give Horror the
aggregated genre weight 10, and a Horror candidate then receives the
feedback sub-score min(10, 10 * 0.5) = 5. -/
theorem feedback_aggregation_positive_threshold_and_horror_scenario :
    (∀ (feedback : List UserFeedback) (g : ℤ),
      (analyzeUserFeedback feedback).preferredGenres g =
        ((feedback.filter (fun f => (7/2 : ℚ) ≤ f.rating)).map
          (fun f => f.rating * (f.genres.count g : ℚ))).sum) ∧
    (∀ (feedback : List UserFeedback) (p : String),
      (analyzeUserFeedback feedback).preferredCast p =
        ((feedback.filter (fun f => (7/2 : ℚ) ≤ f.rating)).map
          (fun f => f.rating * (f.cast.count p : ℚ))).sum) ∧
    (∀ (feedback : List UserFeedback) (p : String),
      (analyzeUserFeedback feedback).preferredCrew p =
        ((feedback.filter (fun f => (7/2 : ℚ) ≤ f.rating)).map
          (fun f => f.rating * (f.crew.count p : ℚ))).sum) ∧
    (analyzeUserFeedback [horrorRecord1, horrorRecord2]).preferredGenres 27 = 10 ∧
    getRecommendationBoost [horrorRecord1, horrorRecord2] horrorCandidate = 5 := by
  refine ⟨fun feedback g => ?_, fun feedback p => ?_, fun feedback p => ?_, ?_, ?_⟩
  · exact accumulateWeights_apply _ _ feedback g
  · exact accumulateWeights_apply _ _ feedback p
  · exact accumulateWeights_apply _ _ feedback p
  · norm_num [analyzeUserFeedback, accumulateWeights, bumpWeight,
      horrorRecord1, horrorRecord2]
  · norm_num [getRecommendationBoost, calculateFeedbackBoost, analyzeUserFeedback,
      accumulateWeights, bumpWeight, horrorRecord1, horrorRecord2, horrorCandidate]

/- ---------------------------------------------------------------------
   C3 — discovery output: unique (id, media type) pairs, seed media type
--------------------------------------------------------------------- -/

/-- C3: the final recommendation list of the discovery orchestrator
contains no two entries with the same (identifier, media type) pair,
and every entry's media type equals the seed's media type. -/
theorem discovery_output_unique_pairs_and_seed_media_type
    (env : DiscoveryEnv) (seedItem : TMDBItem) :
    (getIntelligentRecommendations env seedItem).Pairwise
      (fun a b => ¬ (a.id = b.id ∧ a.media_type = b.media_type)) ∧
    ∀ item ∈ getIntelligentRecommendations env seedItem,
      item.media_type = seedItem.media_type := by
  unfold getIntelligentRecommendations finalizeRecommendations
  generalize gatherCandidates env seedItem = recs
  constructor
  · have hnodup := dedupById_ids_nodup recs
    have hmapped : (((dedupById recs).map
        (fun i => { i with media_type := seedItem.media_type })).map
        (fun i => i.id)).Nodup := by
      rw [List.map_map]
      exact hnodup
    have hpw := List.pairwise_map.mp hmapped
    have htake := hpw.sublist (List.take_sublist 50 _)
    exact htake.imp (fun h hconj => h hconj.1)
  · intro item hitem
    have hmem := List.mem_of_mem_take hitem
    rw [List.mem_map] at hmem
    obtain ⟨i, _, rfl⟩ := hmem
    rfl

/- ---------------------------------------------------------------------
   C7 — fallback guarantee under total primary-strategy failure
--------------------------------------------------------------------- -/

lemma flatten_map_nil {α β : Type} (l : List α) :
    (l.map (fun _ => ([] : List β))).flatten = [] := by
  induction l with
  | nil => rfl
  | cons a as ih => simp [ih]

/-- C7: when every primary strategy fails (not-ok similar response,
failed genre and title searches, no curated keywords, failed credits
fetch, no web results) and the unfiltered similar fallback succeeds
with distinct items other than the seed, the orchestrator still returns
at least min(10, number of available fallback items) candidates, and
every returned candidate is flagged isFallback. -/
theorem discovery_total_outage_fallback_guarantee
    (env : DiscoveryEnv) (seedItem : TMDBItem) (fb : List TMDBItem)
    (hsim : env.similarResponse = none)
    (hgen : ∀ g, env.genreResponse g = none)
    (hsearch : ∀ s, env.titleSearchResponse s = none)
    (hkw : env.seedTmdbKeywords = [])
    (hcred : env.seedCredits = none)
    (hgoogle : env.googleItems = [])
    (hfb : env.fallbackResponse = some fb)
    (hnodup : (fb.map (fun i => i.id)).Nodup)
    (hnotseed : ∀ i ∈ fb, i.id ≠ seedItem.id) :
    min 10 fb.length ≤ (getIntelligentRecommendations env seedItem).length ∧
    ∀ item ∈ getIntelligentRecommendations env seedItem, item.isFallback = true := by
  have hgather : gatherCandidates env seedItem =
      ((fb.filter (fun i => !decide (i.id = seedItem.id))).take 20).map
        (fun i => { i with isFallback := true }) := by
    simp [gatherCandidates, hsim, hgen, hsearch, hkw, hcred, hgoogle, hfb,
      flatten_map_nil, filterAndPreprocessCandidates]
  have hfilter : fb.filter (fun i => !decide (i.id = seedItem.id)) = fb :=
    List.filter_eq_self.mpr (fun a ha => by simp [hnotseed a ha])
  rw [hfilter] at hgather
  have hids : ((((fb.take 20).map (fun i => { i with isFallback := true })).map
      (fun i => i.id))).Nodup := by
    rw [List.map_map]
    have : ((fb.take 20).map (fun i => i.id)).Nodup := by
      rw [List.map_take]
      exact hnodup.sublist (List.take_sublist 20 _)
    exact this
  have hdedup : dedupById ((fb.take 20).map (fun i => { i with isFallback := true })) =
      (fb.take 20).map (fun i => { i with isFallback := true }) :=
    dedupById_eq_self hids
  have hout : getIntelligentRecommendations env seedItem =
      ((((fb.take 20).map (fun i => { i with isFallback := true })).map
        (fun i => { i with media_type := seedItem.media_type })).take 50) := by
    rw [getIntelligentRecommendations, hgather, finalizeRecommendations, hdedup]
  constructor
  · rw [hout]
    simp only [List.length_take, List.length_map]
    omega
  · intro item hitem
    rw [hout] at hitem
    have hmem := List.mem_of_mem_take hitem
    rw [List.mem_map] at hmem
    obtain ⟨j, hj, rfl⟩ := hmem
    rw [List.mem_map] at hj
    obtain ⟨i, _, rfl⟩ := hj
    rfl

/-- Witness for C7: a concrete total-outage environment with two
distinct fallback items. -/
def outageFallbackItem1 : TMDBItem := { id := 101, media_type := .movie }

/-- Second concrete fallback item for the C7 witness. -/
def outageFallbackItem2 : TMDBItem := { id := 102, media_type := .movie }

/-- Concrete seed for the C7 witness. -/
def outageSeedItem : TMDBItem := { id := 100, media_type := .movie }

/-- Concrete total-outage discovery environment for the C7 witness. -/
def outageEnv : DiscoveryEnv :=
  { currentYear := 2026
    similarResponse := none
    genreResponse := fun _ => none
    titleSearchResponse := fun _ => none
    seedTmdbKeywords := []
    keywordDiscoverResponse := none
    seedCredits := none
    personWorksResponse := fun _ => none
    googleEnabled := false
    googleItems := []
    fallbackResponse := some [outageFallbackItem1, outageFallbackItem2] }

theorem discovery_total_outage_fallback_guarantee_witness :
    outageEnv.similarResponse = none ∧
    (([outageFallbackItem1, outageFallbackItem2].map (fun i => i.id))).Nodup ∧
    (∀ i ∈ [outageFallbackItem1, outageFallbackItem2], i.id ≠ outageSeedItem.id) ∧
    min 10 ([outageFallbackItem1, outageFallbackItem2] : List TMDBItem).length ≤
      (getIntelligentRecommendations outageEnv outageSeedItem).length ∧
    ∀ item ∈ getIntelligentRecommendations outageEnv outageSeedItem,
      item.isFallback = true := by
  have h := discovery_total_outage_fallback_guarantee outageEnv outageSeedItem
    [outageFallbackItem1, outageFallbackItem2] rfl (fun _ => rfl) (fun _ => rfl)
    rfl rfl rfl rfl (by decide) (by decide)
  exact ⟨rfl, by decide, by decide, h.1, h.2⟩

/- ---------------------------------------------------------------------
   C2 — ranking: descending by score, ties in stable input order
--------------------------------------------------------------------- -/

lemma scoreDescLE_trans (a b c : ScoredRecommendation)
    (hab : scoreDescLE a b) (hbc : scoreDescLE b c) : scoreDescLE a c := by
  simp only [scoreDescLE, decide_eq_true_eq] at hab hbc ⊢
  exact le_trans hbc hab

lemma scoreDescLE_total (a b : ScoredRecommendation) :
    scoreDescLE a b || scoreDescLE b a := by
  simp only [scoreDescLE, Bool.or_eq_true, decide_eq_true_eq]
  exact le_total b.score a.score

/-- C2: the scoring engine's output is sorted descending by total
score, and the entries carrying any fixed total score appear in exactly
the order in which their candidates were scored (input order) — the JS
sort is stable. -/
theorem scoring_output_sorted_descending_and_stable
    (env : ScoreEnv) (seedItem : TMDBItem) (recommendations : List TMDBItem)
    (genres : List TMDBGenre) :
    (scoreRecommendations env seedItem recommendations genres).Pairwise
      (fun a b => b.score ≤ a.score) ∧
    ∀ s : ℤ,
      (scoreRecommendations env seedItem recommendations genres).filter
        (fun r => r.score == s) =
      (recommendations.map (scoreOne env seedItem genres)).filter
        (fun r => r.score == s) := by
  constructor
  · have h := @List.sorted_mergeSort ScoredRecommendation scoreDescLE
      scoreDescLE_trans scoreDescLE_total
      (recommendations.map (scoreOne env seedItem genres))
    exact h.imp (fun hab => by
      simpa [scoreDescLE, decide_eq_true_eq] using hab)
  · intro s
    set pre := recommendations.map (scoreOne env seedItem genres) with hpre
    set out := pre.mergeSort scoreDescLE with hout
    have hperm : List.Perm out pre := List.mergeSort_perm pre scoreDescLE
    set c := pre.filter (fun r => r.score == s) with hc
    have hcpw : c.Pairwise (fun a b => scoreDescLE a b) := by
      apply List.pairwise_of_forall_mem_list
      intro a ha b hb
      have ha2 := List.of_mem_filter ha
      have hb2 := List.of_mem_filter hb
      rw [beq_iff_eq] at ha2 hb2
      simp [scoreDescLE, ha2, hb2]
    have hcsub : List.Sublist c out :=
      List.sublist_mergeSort scoreDescLE_trans scoreDescLE_total hcpw
        (List.filter_sublist pre)
    have hcfsub : List.Sublist (c.filter (fun r => r.score == s))
        (out.filter (fun r => r.score == s)) := hcsub.filter _
    have hcf : c.filter (fun r => r.score == s) = c := by
      apply List.filter_eq_self.mpr
      intro a ha
      rw [hc] at ha
      exact (List.mem_filter.mp ha).2
    rw [hcf] at hcfsub
    have hlen : c.length = (out.filter (fun r => r.score == s)).length :=
      ((hperm.filter _).symm.length_eq).symm ▸ rfl
    exact (hcfsub.eq_of_length (by
      have := (hperm.filter (fun r => r.score == s)).length_eq
      omega)).symm

/- ---------------------------------------------------------------------
   Bounds machinery for the scoring engine
--------------------------------------------------------------------- -/

lemma jsRound_nonneg {α : Type} [LinearOrderedField α] [FloorRing α]
    {x : α} (h : 0 ≤ x) : 0 ≤ jsRound x := by
  have : (0 : α) ≤ x + 1 / 2 := by linarith
  exact Int.floor_nonneg.mpr this

lemma jsRound_le_of_le {α : Type} [LinearOrderedField α] [FloorRing α]
    {x : α} {n : ℤ} (h : x ≤ n) : jsRound x ≤ n := by
  have h1 : ⌊x + 1 / 2⌋ ≤ ⌊(n : α) + 1 / 2⌋ := Int.floor_le_floor (by linarith)
  have h2 : ⌊(n : α) + 1 / 2⌋ = n := by
    rw [Int.floor_eq_iff]
    constructor
    · push_cast; linarith
    · push_cast; linarith
  rw [jsRound]
  omega

lemma jsRound_intCast {α : Type} [LinearOrderedField α] [FloorRing α]
    (n : ℤ) : jsRound ((n : α)) = n := by
  rw [jsRound, Int.floor_eq_iff]
  constructor
  · push_cast; linarith
  · push_cast; linarith

lemma foldl_init_le {ι α2 : Type} [Preorder α2] (step : α2 → ι → α2) (l : List ι)
    (init : α2) (h : ∀ s : α2, ∀ x ∈ l, s ≤ step s x) : init ≤ l.foldl step init := by
  induction l generalizing init with
  | nil => exact le_refl init
  | cons a as ih =>
    refine le_trans (h init a (List.mem_cons_self a as)) ?_
    exact ih (step init a) (fun s x hx => h s x (List.mem_cons_of_mem a hx))

lemma genreRarityMap_nonneg (genreId : ℤ) : 0 ≤ genreRarityMap genreId := by
  unfold genreRarityMap
  split_ifs <;> norm_num

lemma calculateGenreRarityWeights_nonneg (allGenres : List TMDBGenre)
    (seedGenres : List ℤ) (genreId : ℤ) :
    0 ≤ calculateGenreRarityWeights allGenres seedGenres genreId := by
  unfold calculateGenreRarityWeights
  split_ifs
  · exact genreRarityMap_nonneg genreId
  · norm_num

lemma calculateGenreScore_nonneg (seedGenres candidateGenres : List ℤ)
    (rarityWeights : ℤ → ℚ) (hw : ∀ g, 0 ≤ rarityWeights g) :
    0 ≤ calculateGenreScore seedGenres candidateGenres rarityWeights := by
  unfold calculateGenreScore
  dsimp only
  by_cases hcommon : (candidateGenres.filter (fun g => seedGenres.contains g)).length = 0
  · rw [if_pos hcommon]
  · rw [if_neg hcommon]
    have hlen : 0 < ((candidateGenres.filter (fun g => seedGenres.contains g)).length : ℚ) := by
      have := Nat.pos_of_ne_zero hcommon
      exact_mod_cast this
    have htw : 0 ≤ (candidateGenres.filter (fun g => seedGenres.contains g)).foldl
        (fun s g => s + rarityWeights g) 0 := by
      apply foldl_init_le
      intro s x _
      have := hw x
      linarith
    have havg : 0 ≤ ((candidateGenres.filter (fun g => seedGenres.contains g)).foldl
        (fun s g => s + rarityWeights g) 0) /
        ((candidateGenres.filter (fun g => seedGenres.contains g)).length : ℚ) :=
      div_nonneg htw (le_of_lt hlen)
    have hbase : (0 : ℚ) ≤ ((candidateGenres.filter (fun g => seedGenres.contains g)).length : ℚ) /
        (max (seedGenres.length : ℚ) 1) * 80 := by
      apply mul_nonneg _ (by norm_num)
      apply div_nonneg (by positivity)
      exact le_trans (by norm_num) (le_max_right _ 1)
    have hrar : (0 : ℚ) ≤ min 30 (((candidateGenres.filter (fun g => seedGenres.contains g)).foldl
        (fun s g => s + rarityWeights g) 0) /
        ((candidateGenres.filter (fun g => seedGenres.contains g)).length : ℚ) * 15) :=
      le_min (by norm_num) (by nlinarith)
    have hdiv : (0 : ℚ) ≤ min 15 (((candidateGenres.filter
        (fun g => seedGenres.contains g)).length : ℚ) * 3) :=
      le_min (by norm_num) (by positivity)
    refine le_min (by norm_num) ?_
    split_ifs <;> nlinarith [hbase, hrar, hdiv]

lemma calculateCastCrewScore_nonneg (seedCredits candidateCredits : Option TMDBCreditsResponse) :
    0 ≤ calculateCastCrewScore seedCredits candidateCredits := by
  unfold calculateCastCrewScore
  match seedCredits, candidateCredits with
  | none, none => norm_num
  | none, some _ => norm_num
  | some _, none => norm_num
  | some sc, some cc =>
    simp only
    split_ifs with h
    · exact le_refl 0
    · refine le_min (by norm_num) ?_
      apply foldl_init_le
      intro s x _
      split_ifs <;> linarith

lemma calculateToneScore_nonneg (seedItem candidateItem : TMDBItem) :
    0 ≤ calculateToneScore seedItem candidateItem := by
  unfold calculateToneScore
  dsimp only
  split_ifs <;> norm_num

lemma preferredGenres_nonneg (feedback : List UserFeedback) (g : ℤ) :
    0 ≤ (analyzeUserFeedback feedback).preferredGenres g := by
  rw [analyzeUserFeedback]
  simp only
  rw [accumulateWeights_apply]
  apply List.sum_nonneg
  intro x hx
  rw [List.mem_map] at hx
  obtain ⟨f, hf, rfl⟩ := hx
  have := (List.mem_filter.mp hf).2
  rw [decide_eq_true_eq] at this
  have : (0 : ℚ) ≤ f.rating := by linarith
  positivity

lemma getRecommendationBoost_nonneg (feedback : List UserFeedback)
    (candidate : TMDBItem) : 0 ≤ getRecommendationBoost feedback candidate := by
  unfold getRecommendationBoost calculateFeedbackBoost
  refine le_min (by norm_num) ?_
  apply foldl_init_le
  intro s x hx
  dsimp only
  split_ifs with h
  · have hw := preferredGenres_nonneg feedback x
    have : (0 : ℚ) ≤ min 10 ((analyzeUserFeedback feedback).preferredGenres x * (1 / 2)) :=
      le_min (by norm_num) (by linarith)
    linarith
  · exact le_refl s

lemma keywordOverlapBonus_nonneg (seedKeywords candidateKeywords : List TMDBKeyword) :
    0 ≤ keywordOverlapBonus seedKeywords candidateKeywords := by
  unfold keywordOverlapBonus
  dsimp only
  split_ifs with h1 h2
  · refine le_min (by norm_num) ?_
    positivity
  · exact le_refl 0
  · exact le_refl 0

lemma calculateKeywordSimilarityScore_nonneg (seedKeywords candidateKeywords : List TMDBKeyword) :
    0 ≤ calculateKeywordSimilarityScore seedKeywords candidateKeywords := by
  unfold calculateKeywordSimilarityScore
  dsimp only
  have hratio : (0 : ℚ) ≤ (((seedKeywords.map (fun k => jsLower k.name)).dedup.filter
      (fun n => (candidateKeywords.map (fun k => jsLower k.name)).dedup.contains n)).length : ℚ) /
      (((seedKeywords.map (fun k => jsLower k.name)).dedup.length +
        candidateKeywords.length : ℕ) : ℚ) := by positivity
  have hmin1 : (0 : ℚ) ≤ min 8 ((((seedKeywords.map (fun k => jsLower k.name)).dedup.filter
      (fun n => (candidateKeywords.map (fun k => jsLower k.name)).dedup.contains n)).length : ℚ) * (3 / 2)) :=
    le_min (by norm_num) (by positivity)
  have hmin2 : (0 : ℚ) ≤ min 8 ((((seedKeywords.map (fun k => jsLower k.name)).dedup.filter
      (fun n => (candidateKeywords.map (fun k => jsLower k.name)).dedup.contains n)).length : ℚ) * 1) :=
    le_min (by norm_num) (by positivity)
  split_ifs with h1 h2 h3
  · exact le_refl 0
  · exact le_refl 0
  · exact jsRound_nonneg (le_min (by norm_num) (by nlinarith))
  · exact jsRound_nonneg (le_min (by norm_num) (by nlinarith))

lemma ratingScorePart_nonneg (item : TMDBItem) : 0 ≤ ratingScorePart item := by
  unfold ratingScorePart
  have h1 : (0 : ℝ) ≤ max 0 (min 1 (((item.vote_average : ℝ) - 1) / 9)) := le_max_left 0 _
  have hlog : (0 : ℝ) ≤ Real.logb 10 (max 1 (item.vote_count : ℝ)) :=
    Real.logb_nonneg (by norm_num) (le_max_left 1 _)
  have h2 : (0 : ℝ) ≤ min 5 (Real.logb 10 (max 1 (item.vote_count : ℝ)) * (3 / 2)) :=
    le_min (by norm_num) (by linarith)
  nlinarith

lemma popularityScorePart_nonneg (item : TMDBItem) : 0 ≤ popularityScorePart item := by
  unfold popularityScorePart
  have hlog : (0 : ℝ) ≤ Real.logb 10 (max 1 (item.vote_count : ℝ)) :=
    Real.logb_nonneg (by norm_num) (le_max_left 1 _)
  have : (0 : ℝ) ≤ min 1 (Real.logb 10 (max 1 (item.vote_count : ℝ)) / 5) :=
    le_min (by norm_num) (by linarith)
  linarith

lemma calculateTextSimilarity_nonneg (env : ScoreEnv) (seedItem candidateItem : TMDBItem)
    (hsim : ∀ a b, 0 ≤ getSemanticSimilarity env.embed a b) :
    0 ≤ calculateTextSimilarity env seedItem candidateItem := by
  unfold calculateTextSimilarity
  dsimp only
  have hkb : (0 : ℝ) ≤ ((keywordOverlapBonus (env.keywords seedItem.id seedItem.media_type)
      (env.keywords candidateItem.id candidateItem.media_type) : ℚ) : ℝ) := by
    have := keywordOverlapBonus_nonneg (env.keywords seedItem.id seedItem.media_type)
      (env.keywords candidateItem.id candidateItem.media_type)
    exact_mod_cast this
  have haux : ∀ S T K : ℝ, 0 ≤ S → 0 ≤ T → 0 ≤ K → (0 : ℝ) ≤ min 1 (S + T + K) :=
    fun S T K hS hT hK => le_min (by norm_num) (by linarith)
  have htg : (0 : ℝ) ≤ min (1 / 10)
      (getSemanticSimilarity env.embed (seedItem.tagline.getD "")
        (candidateItem.tagline.getD "") * (1 / 10)) := by
    have := hsim (seedItem.tagline.getD "") (candidateItem.tagline.getD "")
    exact le_min (by norm_num) (by nlinarith)
  split_ifs
  all_goals first
    | exact haux _ _ _ (hsim _ _) htg hkb
    | exact haux _ _ _ (hsim _ _) le_rfl hkb

lemma normalTotal_nonneg (env : ScoreEnv) (genres : List TMDBGenre)
    (seedItem item : TMDBItem)
    (hsim : ∀ a b, 0 ≤ getSemanticSimilarity env.embed a b) :
    0 ≤ normalTotal env genres seedItem item := by
  unfold normalTotal
  dsimp only
  have hg : (0 : ℝ) ≤ (genreScorePart genres seedItem item : ℝ) := by
    have := calculateGenreScore_nonneg seedItem.genre_ids item.genre_ids
      (calculateGenreRarityWeights genres seedItem.genre_ids)
      (calculateGenreRarityWeights_nonneg genres seedItem.genre_ids)
    unfold genreScorePart
    exact_mod_cast this
  have hmax : (0 : ℝ) ≤ max 0 ((genreScorePart genres seedItem item : ℝ) - 40) :=
    le_max_left 0 _
  have hminA : (0 : ℝ) ≤ min 120 (max 0 ((genreScorePart genres seedItem item : ℝ) - 40) + 5) :=
    le_min (by norm_num) (by linarith)
  have hminB : (0 : ℝ) ≤ min 120 ((genreScorePart genres seedItem item : ℝ) + 5) :=
    le_min (by norm_num) (by linarith)
  have hr := ratingScorePart_nonneg item
  have hd := calculateTextSimilarity_nonneg env seedItem item hsim
  have hcc : (0 : ℝ) ≤ (castCrewScorePart env seedItem item : ℝ) := by
    have := calculateCastCrewScore_nonneg (env.credits seedItem.id seedItem.media_type)
      (env.credits item.id item.media_type)
    unfold castCrewScorePart
    exact_mod_cast this
  have hp := popularityScorePart_nonneg item
  have hto : (0 : ℝ) ≤ (calculateToneScore seedItem item : ℝ) := by
    have := calculateToneScore_nonneg seedItem item
    exact_mod_cast this
  have hfb : (0 : ℝ) ≤ (feedbackBoostPart env item : ℝ) := by
    have := getRecommendationBoost_nonneg env.feedback item
    unfold feedbackBoostPart
    exact_mod_cast this
  have hkw : (0 : ℝ) ≤ (keywordScorePart env seedItem item : ℝ) := by
    have := calculateKeywordSimilarityScore_nonneg
      (env.keywords seedItem.id seedItem.media_type)
      (env.keywords item.id item.media_type)
    unfold keywordScorePart
    exact_mod_cast this
  have hd25 : (0 : ℝ) ≤ calculateTextSimilarity env seedItem item * 25 := by linarith
  split_ifs <;> linarith

/- ---------------------------------------------------------------------
   C1 — total-score bounds
--------------------------------------------------------------------- -/

lemma getKeywordSimilarity_nonneg (textA textB : String) :
    0 ≤ getKeywordSimilarity textA textB := by
  unfold getKeywordSimilarity
  dsimp only
  split_ifs
  · exact le_refl 0
  · positivity

lemma getSemanticSimilarity_nonneg_of_empty (embed : String → List ℝ)
    (h : ∀ s, embed s = []) (textA textB : String) :
    0 ≤ getSemanticSimilarity embed textA textB := by
  rw [getSemanticSimilarity]
  rw [if_pos (Or.inl (by rw [h textA]; rfl))]
  exact_mod_cast getKeywordSimilarity_nonneg textA textB

/-- C1 (amended): every element of the scoring engine's output has an
integer total score at most 120 on both the normal path and the
per-item failure path; the score is moreover at least 0 whenever every
semantic-similarity value the engine can consult is nonnegative (in
particular on the lexical fallback path) and candidate ratings lie in
the TMDB range [0, 10].  The code clamps the total only from above, so
without the similarity hypothesis the lower bound fails (see the
counterexample). -/
theorem scoring_total_integer_bounds (env : ScoreEnv) (seedItem : TMDBItem)
    (recommendations : List TMDBItem) (genres : List TMDBGenre)
    (hva : ∀ item ∈ recommendations, 0 ≤ item.vote_average ∧ item.vote_average ≤ 10)
    (hsim : ∀ a b, 0 ≤ getSemanticSimilarity env.embed a b) :
    ∀ r ∈ scoreRecommendations env seedItem recommendations genres,
      0 ≤ r.score ∧ r.score ≤ 120 := by
  intro r hr
  rw [scoreRecommendations] at hr
  have hr2 := (List.mergeSort_perm (recommendations.map (scoreOne env seedItem genres))
    scoreDescLE).mem_iff.mp hr
  rw [List.mem_map] at hr2
  obtain ⟨item, hitem, rfl⟩ := hr2
  obtain ⟨hva0, hva10⟩ := hva item hitem
  rw [scoreOne]
  split_ifs with hthrow
  · constructor
    · apply jsRound_nonneg
      positivity
    · apply jsRound_le_of_le
      push_cast
      nlinarith
  · constructor
    · exact jsRound_nonneg (le_min (by norm_num)
        (normalTotal_nonneg env genres seedItem item hsim))
    · apply jsRound_le_of_le
      push_cast
      exact min_le_left 120 _

/-- Concrete environment for the C1 witness: empty embeddings (lexical
fallback), no keywords, no credits, no feedback, no failures. -/
def boundsWitnessEnv : ScoreEnv :=
  { embed := fun _ => []
    keywords := fun _ _ => []
    credits := fun _ _ => none
    feedback := []
    throws := fun _ => false }

/-- Concrete seed for the C1 witness. -/
def boundsWitnessSeed : TMDBItem := { id := 300, media_type := .movie }

/-- Concrete candidate for the C1 witness. -/
def boundsWitnessCand : TMDBItem :=
  { id := 301, media_type := .movie, vote_average := 8 }

theorem scoring_total_integer_bounds_witness :
    (∀ item ∈ [boundsWitnessCand], 0 ≤ item.vote_average ∧ item.vote_average ≤ 10) ∧
    (∀ a b, 0 ≤ getSemanticSimilarity boundsWitnessEnv.embed a b) ∧
    ∀ r ∈ scoreRecommendations boundsWitnessEnv boundsWitnessSeed [boundsWitnessCand] [],
      0 ≤ r.score ∧ r.score ≤ 120 := by
  have h1 : ∀ item ∈ [boundsWitnessCand], 0 ≤ item.vote_average ∧ item.vote_average ≤ 10 := by
    intro item hitem
    rw [List.mem_singleton] at hitem
    subst hitem
    norm_num [boundsWitnessCand]
  have h2 : ∀ a b, 0 ≤ getSemanticSimilarity boundsWitnessEnv.embed a b :=
    fun a b => getSemanticSimilarity_nonneg_of_empty _ (fun _ => rfl) a b
  exact ⟨h1, h2,
    scoring_total_integer_bounds boundsWitnessEnv boundsWitnessSeed [boundsWitnessCand]
      [] h1 h2⟩

/-- Environment for the C1 counterexample: the embedding service
returns opposite one-dimensional vectors for the two overviews, so the
cosine similarity is -1. -/
def negSimEnv : ScoreEnv :=
  { embed := fun s => if s = "dark" then [(1 : ℝ)] else if s = "beta" then [(-1 : ℝ)] else []
    keywords := fun _ _ => []
    credits := fun _ _ => none
    feedback := []
    throws := fun _ => false }

/-- Seed for the C1 counterexample (overview "dark", serious tone). -/
def negSimSeedItem : TMDBItem :=
  { id := 200, overview := "dark", media_type := .movie, genre_ids := [28] }

/-- Candidate for the C1 counterexample (no shared genre, neutral tone,
rating 0, votes 0). -/
def negSimCandidateItem : TMDBItem :=
  { id := 201, overview := "beta", media_type := .movie, genre_ids := [] }

lemma negSim_semantic : getSemanticSimilarity negSimEnv.embed "dark" "beta" = -1 := by
  have h1 : negSimEnv.embed "dark" = [(1 : ℝ)] := by norm_num [negSimEnv]
  have h2 : negSimEnv.embed "beta" = [(-1 : ℝ)] := by
    show (if ("beta" : String) = "dark" then [(1 : ℝ)] else
      if ("beta" : String) = "beta" then [(-1 : ℝ)] else []) = [(-1 : ℝ)]
    rw [if_neg (by decide), if_pos rfl]
  rw [getSemanticSimilarity]
  rw [h1, h2]
  rw [if_neg (by norm_num)]
  rw [cosineSimilarity]
  rw [if_neg (by norm_num)]
  norm_num [List.zip, List.zipWith, Real.sqrt_one]

lemma negSim_text :
    calculateTextSimilarity negSimEnv negSimSeedItem negSimCandidateItem = -1 := by
  rw [calculateTextSimilarity]
  have hs : strTruthy negSimSeedItem.tagline = false := rfl
  have hc : strTruthy negSimCandidateItem.tagline = false := rfl
  rw [hs]
  simp only [Bool.false_eq_true, if_false, false_and, if_neg (by exact fun h => by simp at h : ¬ (False ∧ strTruthy negSimCandidateItem.tagline = true))]
  have hkb : keywordOverlapBonus (negSimEnv.keywords negSimSeedItem.id negSimSeedItem.media_type)
      (negSimEnv.keywords negSimCandidateItem.id negSimCandidateItem.media_type) = 0 := by
    norm_num [keywordOverlapBonus, negSimEnv]
  rw [hkb]
  have : negSimSeedItem.overview = "dark" := rfl
  rw [this]
  have : negSimCandidateItem.overview = "beta" := rfl
  rw [this]
  rw [negSim_semantic]
  norm_num

/-- C1 counterexample: with a negative embedding similarity the engine
returns a total score of -25, outside [0, 120]. -/
theorem scoring_total_below_zero_counterexample :
    (scoreRecommendations negSimEnv negSimSeedItem [negSimCandidateItem] []).map
      (fun r => r.score) = [-25] ∧ ¬ (0 : ℤ) ≤ -25 := by
  have hgenre : genreScorePart [] negSimSeedItem negSimCandidateItem = 0 := by
    norm_num [genreScorePart, calculateGenreScore, negSimSeedItem, negSimCandidateItem]
  have hrating : ratingScorePart negSimCandidateItem = 0 := by
    rw [ratingScorePart]
    have hva : (negSimCandidateItem.vote_average : ℝ) = 0 := by
      norm_num [negSimCandidateItem]
    have hvc : (negSimCandidateItem.vote_count : ℝ) = 0 := by
      norm_num [negSimCandidateItem]
    rw [hva, hvc]
    norm_num [Real.logb_one]
  have hpop : popularityScorePart negSimCandidateItem = 0 := by
    rw [popularityScorePart]
    have hvc : (negSimCandidateItem.vote_count : ℝ) = 0 := by
      norm_num [negSimCandidateItem]
    rw [hvc]
    norm_num [Real.logb_one]
  have hcc : castCrewScorePart negSimEnv negSimSeedItem negSimCandidateItem = 0 := rfl
  have htone : calculateToneScore negSimSeedItem negSimCandidateItem = 0 := by decide
  have hfb : feedbackBoostPart negSimEnv negSimCandidateItem = 0 := by
    norm_num [feedbackBoostPart, getRecommendationBoost, calculateFeedbackBoost,
      negSimCandidateItem, negSimEnv]
  have hkwp : keywordScorePart negSimEnv negSimSeedItem negSimCandidateItem = 0 := rfl
  have hnt : normalTotal negSimEnv [] negSimSeedItem negSimCandidateItem = -25 := by
    rw [normalTotal]
    rw [hgenre, hrating, hcc, hpop, htone, hfb, hkwp, negSim_text]
    have hf : negSimCandidateItem.isFallback = false := rfl
    have hg : negSimCandidateItem.isGoogleSourced = false := rfl
    rw [hf, hg]
    norm_num
  constructor
  · rw [scoreRecommendations, List.map_cons, List.map_nil, List.mergeSort_singleton,
      List.map_cons, List.map_nil]
    have hthrow : negSimEnv.throws negSimCandidateItem = false := rfl
    rw [scoreOne, hthrow]
    simp only [Bool.false_eq_true, if_false]
    rw [hnt]
    have hmin : min (120 : ℝ) (-25) = -25 := by norm_num
    rw [hmin]
    have : ((-25 : ℤ) : ℝ) = (-25 : ℝ) := by norm_num
    rw [← this, jsRound_intCast]
  · norm_num

/- ---------------------------------------------------------------------
   C4 — the is_fallback penalty
--------------------------------------------------------------------- -/

/-- C4 (amended): the is_fallback penalty is applied to the running
total right after the genre stage, so (for a non-Google-sourced
candidate) the pre-clamp total of the flagged candidate equals the
pre-clamp total of the identical unflagged candidate reduced by
exactly min(40, genre sub-score) — not by 40 with a floor of 0 on the
final total. -/
theorem fallback_penalty_is_genre_stage_min
    (env : ScoreEnv) (genres : List TMDBGenre) (seedItem item : TMDBItem)
    (hnf : item.isFallback = false) (hng : item.isGoogleSourced = false) :
    normalTotal env genres seedItem { item with isFallback := true } =
      normalTotal env genres seedItem item -
        min 40 ((genreScorePart genres seedItem item : ℚ) : ℝ) := by
  have hg : genreScorePart genres seedItem { item with isFallback := true } =
      genreScorePart genres seedItem item := rfl
  have hr : ratingScorePart { item with isFallback := true } = ratingScorePart item := rfl
  have ht : calculateTextSimilarity env seedItem { item with isFallback := true } =
      calculateTextSimilarity env seedItem item := rfl
  have hc : castCrewScorePart env seedItem { item with isFallback := true } =
      castCrewScorePart env seedItem item := rfl
  have hp : popularityScorePart { item with isFallback := true } =
      popularityScorePart item := rfl
  have hto : calculateToneScore seedItem { item with isFallback := true } =
      calculateToneScore seedItem item := rfl
  have hfb : feedbackBoostPart env { item with isFallback := true } =
      feedbackBoostPart env item := rfl
  have hkw : keywordScorePart env seedItem { item with isFallback := true } =
      keywordScorePart env seedItem item := rfl
  have h1 : ({ item with isFallback := true } : TMDBItem).isFallback = true := rfl
  have h2 : ({ item with isFallback := true } : TMDBItem).isGoogleSourced =
      item.isGoogleSourced := rfl
  rw [normalTotal, normalTotal, hg, hr, ht, hc, hp, hto, hfb, hkw, h1, h2, hnf, hng]
  simp only [if_true, Bool.false_eq_true, if_false]
  have hkey : max 0 (((genreScorePart genres seedItem item : ℚ) : ℝ) - 40) =
      ((genreScorePart genres seedItem item : ℚ) : ℝ) -
        min 40 ((genreScorePart genres seedItem item : ℚ) : ℝ) := by
    rcases le_total (((genreScorePart genres seedItem item : ℚ) : ℝ)) 40 with h | h
    · rw [max_eq_left (by linarith), min_eq_right h]
      ring
    · rw [max_eq_right (by linarith), min_eq_left h]
  rw [hkey]
  ring

/-- Environment for the C4 witness and counterexample. -/
def penaltyEnv : ScoreEnv :=
  { embed := fun _ => []
    keywords := fun _ _ => []
    credits := fun _ _ => none
    feedback := []
    throws := fun _ => false }

/-- Seed for C4: five common genres, two-letter overview. -/
def penaltySeedItem : TMDBItem :=
  { id := 400, overview := "aa", media_type := .movie,
    genre_ids := [28, 12, 35, 80, 18] }

/-- Unflagged candidate for C4: shares one of the seed's five genres
(genre score 34 < 40), top rating, neutral tone matching the seed. -/
def penaltyCandidate : TMDBItem :=
  { id := 401, overview := "bb", media_type := .movie, genre_ids := [28],
    vote_average := 10 }

/-- The identical candidate flagged is_fallback. -/
def penaltyCandidateFlagged : TMDBItem := { penaltyCandidate with isFallback := true }

/-- Witness for C4 at the concrete candidate. -/
theorem fallback_penalty_is_genre_stage_min_witness :
    penaltyCandidate.isFallback = false ∧ penaltyCandidate.isGoogleSourced = false ∧
    normalTotal penaltyEnv [] penaltySeedItem
        { penaltyCandidate with isFallback := true } =
      normalTotal penaltyEnv [] penaltySeedItem penaltyCandidate -
        min 40 ((genreScorePart [] penaltySeedItem penaltyCandidate : ℚ) : ℝ) :=
  ⟨rfl, rfl,
    fallback_penalty_is_genre_stage_min penaltyEnv [] penaltySeedItem penaltyCandidate
      rfl rfl⟩

lemma penalty_lexical : getKeywordSimilarity "aa" "bb" = 0 := by
  have hn1 : normalizeTextE "aa" = [] := by decide
  have hn2 : normalizeTextE "bb" = [] := by decide
  rw [getKeywordSimilarity]
  rw [hn1, hn2]
  norm_num

lemma penalty_text :
    calculateTextSimilarity penaltyEnv penaltySeedItem penaltyCandidate = 0 := by
  rw [calculateTextSimilarity]
  have hs : strTruthy penaltySeedItem.tagline = false := rfl
  rw [hs]
  simp only [Bool.false_eq_true, if_false, false_and,
    if_neg (by exact fun h => by simp at h :
      ¬ (False ∧ strTruthy penaltyCandidate.tagline = true))]
  have hkb : keywordOverlapBonus
      (penaltyEnv.keywords penaltySeedItem.id penaltySeedItem.media_type)
      (penaltyEnv.keywords penaltyCandidate.id penaltyCandidate.media_type) = 0 := by
    norm_num [keywordOverlapBonus, penaltyEnv]
  rw [hkb]
  have h1 : penaltySeedItem.overview = "aa" := rfl
  have h2 : penaltyCandidate.overview = "bb" := rfl
  rw [h1, h2]
  have hsem : getSemanticSimilarity penaltyEnv.embed "aa" "bb" = 0 := by
    rw [getSemanticSimilarity]
    rw [if_pos (Or.inl (show (penaltyEnv.embed "aa").length = 0 from rfl))]
    rw [penalty_lexical]
    norm_num
  rw [hsem]
  norm_num

lemma penalty_genre : genreScorePart [] penaltySeedItem penaltyCandidate = 34 := by
  rw [genreScorePart, calculateGenreScore]
  norm_num [penaltySeedItem, penaltyCandidate, calculateGenreRarityWeights,
    genreRarityMap, List.filter, min_def, max_def]

lemma penalty_rating : ratingScorePart penaltyCandidate = 15 := by
  rw [ratingScorePart]
  have hva : (penaltyCandidate.vote_average : ℝ) = 10 := by
    norm_num [penaltyCandidate]
  have hvc : (penaltyCandidate.vote_count : ℝ) = 0 := by
    norm_num [penaltyCandidate]
  rw [hva, hvc]
  norm_num [Real.logb_one, min_def, max_def]

lemma penalty_pop : popularityScorePart penaltyCandidate = 0 := by
  rw [popularityScorePart]
  have hvc : (penaltyCandidate.vote_count : ℝ) = 0 := by
    norm_num [penaltyCandidate]
  rw [hvc]
  norm_num [Real.logb_one]

lemma penalty_tone : calculateToneScore penaltySeedItem penaltyCandidate = 20 := by
  decide

lemma penalty_normalTotal_unflagged :
    normalTotal penaltyEnv [] penaltySeedItem penaltyCandidate = 69 := by
  rw [normalTotal]
  have hfb : feedbackBoostPart penaltyEnv penaltyCandidate = 0 := by
    have hw : (analyzeUserFeedback ([] : List UserFeedback)).preferredGenres 28 = 0 := rfl
    norm_num [feedbackBoostPart, getRecommendationBoost, calculateFeedbackBoost,
      penaltyCandidate, penaltyEnv, hw]
  have hcc : castCrewScorePart penaltyEnv penaltySeedItem penaltyCandidate = 0 := rfl
  have hkw : keywordScorePart penaltyEnv penaltySeedItem penaltyCandidate = 0 := rfl
  rw [penalty_genre, penalty_rating, penalty_pop, penalty_tone, penalty_text, hfb,
    hcc, hkw]
  have h1 : penaltyCandidate.isFallback = false := rfl
  have h2 : penaltyCandidate.isGoogleSourced = false := rfl
  rw [h1, h2]
  norm_num

/-- C4 counterexample: the flagged copy of the candidate scores 35
while the unflagged one scores 69 — not max(0, 69 - 40) = 29 as the
claim, applied to the final totals, would demand. -/
theorem fallback_penalty_counterexample :
    (scoreRecommendations penaltyEnv penaltySeedItem [penaltyCandidateFlagged] []).map
      (fun r => r.score) = [35] ∧
    (scoreRecommendations penaltyEnv penaltySeedItem [penaltyCandidate] []).map
      (fun r => r.score) = [69] ∧
    ¬ (35 : ℤ) = max 0 (69 - 40) := by
  have hflagged : normalTotal penaltyEnv [] penaltySeedItem penaltyCandidateFlagged = 35 := by
    rw [normalTotal]
    have hg : genreScorePart [] penaltySeedItem penaltyCandidateFlagged = 34 :=
      penalty_genre
    have hr : ratingScorePart penaltyCandidateFlagged = 15 := penalty_rating
    have hp : popularityScorePart penaltyCandidateFlagged = 0 := penalty_pop
    have hto : calculateToneScore penaltySeedItem penaltyCandidateFlagged = 20 :=
      penalty_tone
    have htx : calculateTextSimilarity penaltyEnv penaltySeedItem penaltyCandidateFlagged = 0 :=
      penalty_text
    have hfb : feedbackBoostPart penaltyEnv penaltyCandidateFlagged = 0 := by
      have hw : (analyzeUserFeedback ([] : List UserFeedback)).preferredGenres 28 = 0 := rfl
      norm_num [feedbackBoostPart, getRecommendationBoost, calculateFeedbackBoost,
        penaltyCandidateFlagged, penaltyCandidate, penaltyEnv, hw]
    have hcc : castCrewScorePart penaltyEnv penaltySeedItem penaltyCandidateFlagged = 0 := rfl
    have hkw : keywordScorePart penaltyEnv penaltySeedItem penaltyCandidateFlagged = 0 := rfl
    rw [hg, hr, hp, hto, htx, hfb, hcc, hkw]
    have h1 : penaltyCandidateFlagged.isFallback = true := rfl
    have h2 : penaltyCandidateFlagged.isGoogleSourced = false := rfl
    rw [h1, h2]
    norm_num
  constructor
  · rw [scoreRecommendations, List.map_cons, List.map_nil, List.mergeSort_singleton,
      List.map_cons, List.map_nil]
    have hthrow : penaltyEnv.throws penaltyCandidateFlagged = false := rfl
    rw [scoreOne, hthrow]
    simp only [Bool.false_eq_true, if_false]
    rw [hflagged]
    have hmin : min (120 : ℝ) 35 = 35 := by norm_num
    rw [hmin]
    have : ((35 : ℤ) : ℝ) = (35 : ℝ) := by norm_num
    rw [← this, jsRound_intCast]
  refine ⟨?_, by norm_num⟩
  rw [scoreRecommendations, List.map_cons, List.map_nil, List.mergeSort_singleton,
    List.map_cons, List.map_nil]
  have hthrow : penaltyEnv.throws penaltyCandidate = false := rfl
  rw [scoreOne, hthrow]
  simp only [Bool.false_eq_true, if_false]
  rw [penalty_normalTotal_unflagged]
  have hmin : min (120 : ℝ) 69 = 69 := by norm_num
  rw [hmin]
  have : ((69 : ℤ) : ℝ) = (69 : ℝ) := by norm_num
  rw [← this, jsRound_intCast]

/- ---------------------------------------------------------------------
   C8 — per-item failure fallback entry
--------------------------------------------------------------------- -/

/-- C8 (amended): the batch result contains exactly one entry per
input candidate, and a candidate whose whole per-item scoring path
throws is still emitted with score round((vote_average / 10) * 50) and
a breakdown that is zero in every component except ratingScore, which
carries that same fallback score (the source stores the fallback score
there rather than 0). -/
theorem scoring_throw_emits_fallback_entry (env : ScoreEnv) (seedItem : TMDBItem)
    (recommendations : List TMDBItem) (genres : List TMDBGenre) :
    (scoreRecommendations env seedItem recommendations genres).length =
      recommendations.length ∧
    ∀ c ∈ recommendations, env.throws c = true →
      ∃ r ∈ scoreRecommendations env seedItem recommendations genres,
        r.item = c ∧ r.score = jsRound (c.vote_average / 10 * 50) ∧
        r.scoreBreakdown =
          { genreScore := 0, ratingScore := jsRound (c.vote_average / 10 * 50),
            descriptionScore := 0, castCrewScore := 0, popularityScore := 0,
            toneScore := 0, keywordScore := 0 } := by
  constructor
  · rw [scoreRecommendations]
    rw [(List.mergeSort_perm (recommendations.map (scoreOne env seedItem genres))
      scoreDescLE).length_eq]
    exact List.length_map recommendations _
  · intro c hc hthrow
    refine ⟨scoreOne env seedItem genres c, ?_, ?_⟩
    · rw [scoreRecommendations]
      exact (List.mergeSort_perm (recommendations.map (scoreOne env seedItem genres))
        scoreDescLE).mem_iff.mpr (List.mem_map_of_mem _ hc)
    · rw [scoreOne, if_pos hthrow]
      exact ⟨rfl, rfl, rfl⟩

/-- Environment for C8: the per-item path throws for every candidate. -/
def throwEnv : ScoreEnv :=
  { embed := fun _ => []
    keywords := fun _ _ => []
    credits := fun _ _ => none
    feedback := []
    throws := fun _ => true }

/-- Seed for C8. -/
def throwSeed : TMDBItem := { id := 500, media_type := .movie }

/-- Candidate for C8, rated 8.0 (fallback score 40). -/
def throwCandidate : TMDBItem :=
  { id := 501, media_type := .movie, vote_average := 8 }

/-- Witness for C8 at the concrete throwing candidate. -/
theorem scoring_throw_emits_fallback_entry_witness :
    throwCandidate ∈ [throwCandidate] ∧ throwEnv.throws throwCandidate = true ∧
    ∃ r ∈ scoreRecommendations throwEnv throwSeed [throwCandidate] [],
      r.item = throwCandidate ∧
      r.score = jsRound (throwCandidate.vote_average / 10 * 50) ∧
      r.scoreBreakdown =
        { genreScore := 0, ratingScore := jsRound (throwCandidate.vote_average / 10 * 50),
          descriptionScore := 0, castCrewScore := 0, popularityScore := 0,
          toneScore := 0, keywordScore := 0 } :=
  ⟨List.mem_singleton.mpr rfl, rfl,
    (scoring_throw_emits_fallback_entry throwEnv throwSeed [throwCandidate] []).2
      throwCandidate (List.mem_singleton.mpr rfl) rfl⟩

/-- C8 counterexample: the emitted fallback entry's breakdown is not
all-zero — its ratingScore equals the fallback score 40. -/
theorem scoring_throw_breakdown_not_empty_counterexample :
    (scoreRecommendations throwEnv throwSeed [throwCandidate] []).map
      (fun r => r.scoreBreakdown.ratingScore) = [40] ∧ ¬ (40 : ℤ) = 0 := by
  constructor
  · rw [scoreRecommendations, List.map_cons, List.map_nil, List.mergeSort_singleton,
      List.map_cons, List.map_nil]
    have hthrow : throwEnv.throws throwCandidate = true := rfl
    rw [scoreOne, if_pos hthrow]
    have hva : (throwCandidate.vote_average : ℚ) = 8 := rfl
    simp only [hva]
    have h40 : (8 : ℚ) / 10 * 50 = ((40 : ℤ) : ℚ) := by norm_num
    rw [h40, jsRound_intCast]
  · norm_num

/- ---------------------------------------------------------------------
   C5 — the keyword-overlap sub-score formula
--------------------------------------------------------------------- -/

/-- The keyword-overlap sub-score exactly as the specification words
it: overlap ratio |common| / |union of the two lowercased name sets|,
times 25, plus the two capped bonuses and the perfect-match bonus,
clamped to 45 (no rounding).  Defined only to be compared with the
source's calculateKeywordSimilarityScore. -/
def specKeywordOverlapScore (seedKeywords candidateKeywords : List TMDBKeyword) : ℚ :=
  if seedKeywords.length = 0 ∨ candidateKeywords.length = 0 then 0
  else
    let seedNames := (seedKeywords.map (fun k => jsLower k.name)).dedup
    let candNames := (candidateKeywords.map (fun k => jsLower k.name)).dedup
    let common := seedNames.filter (fun n => candNames.contains n)
    let unionNames := (seedNames ++ candNames).dedup
    let overlapRatio := (common.length : ℚ) / (unionNames.length : ℚ)
    let base := overlapRatio * 25
    let multi := min 8 ((common.length : ℚ) * (3 / 2))
    let rare := min 8 ((common.length : ℚ) * 1)
    let perfect : ℚ :=
      if common.length = min seedKeywords.length candidateKeywords.length then 4 else 0
    min 45 (base + multi + rare + perfect)

/-- C5 (amended): for non-empty keyword sets, the source's sub-score is
the rounded, 45-clamped sum whose overlap ratio divides the common-name
count by (number of distinct seed keyword names + number of candidate
keyword entries) — the union set is built from seed names and raw
candidate keyword objects — rather than by the size of the union of the
two name sets. -/
theorem keyword_overlap_score_source_formula
    (seedKeywords candidateKeywords : List TMDBKeyword)
    (hs : seedKeywords.length ≠ 0) (hc : candidateKeywords.length ≠ 0) :
    calculateKeywordSimilarityScore seedKeywords candidateKeywords =
      jsRound (min 45
        ((((((seedKeywords.map (fun k => jsLower k.name)).dedup.filter
            (fun n => (candidateKeywords.map (fun k => jsLower k.name)).dedup.contains n)).length : ℚ) /
          (((seedKeywords.map (fun k => jsLower k.name)).dedup.length +
            candidateKeywords.length : ℕ) : ℚ)) * 25) +
        min 8 ((((seedKeywords.map (fun k => jsLower k.name)).dedup.filter
            (fun n => (candidateKeywords.map (fun k => jsLower k.name)).dedup.contains n)).length : ℚ) * (3 / 2)) +
        min 8 ((((seedKeywords.map (fun k => jsLower k.name)).dedup.filter
            (fun n => (candidateKeywords.map (fun k => jsLower k.name)).dedup.contains n)).length : ℚ) * 1) +
        (if ((seedKeywords.map (fun k => jsLower k.name)).dedup.filter
            (fun n => (candidateKeywords.map (fun k => jsLower k.name)).dedup.contains n)).length =
            min seedKeywords.length candidateKeywords.length then (4 : ℚ) else 0))) := by
  rw [calculateKeywordSimilarityScore]
  rw [if_neg (by exact fun h => h.elim hs hc)]
  by_cases hcommon : ((seedKeywords.map (fun k => jsLower k.name)).dedup.filter
      (fun n => (candidateKeywords.map (fun k => jsLower k.name)).dedup.contains n)).length = 0
  · rw [if_pos hcommon, hcommon]
    have hperfect : ¬ (0 = min seedKeywords.length candidateKeywords.length) := by
      have h1 : 0 < seedKeywords.length := Nat.pos_of_ne_zero hs
      have h2 : 0 < candidateKeywords.length := Nat.pos_of_ne_zero hc
      omega
    rw [if_neg hperfect]
    have : ((0 : ℕ) : ℚ) / (((seedKeywords.map (fun k => jsLower k.name)).dedup.length +
        candidateKeywords.length : ℕ) : ℚ) * 25 +
        min 8 (((0 : ℕ) : ℚ) * (3 / 2)) + min 8 (((0 : ℕ) : ℚ) * 1) + 0 = 0 := by
      norm_num
    rw [this]
    have hm : min (45 : ℚ) 0 = 0 := by norm_num
    rw [hm]
    have h0 : (0 : ℚ) = ((0 : ℤ) : ℚ) := by norm_num
    rw [h0, jsRound_intCast]
  · rw [if_neg hcommon]

/-- Witness for the amended C5 at the one-common-keyword input. -/
def kwAlien : TMDBKeyword := { id := 1, name := "alien" }

lemma kwAlien_names : ([kwAlien].map (fun k => jsLower k.name)).dedup = ["alien"] := by
  decide

theorem keyword_overlap_score_source_formula_witness :
    ([kwAlien] : List TMDBKeyword).length ≠ 0 ∧
    calculateKeywordSimilarityScore [kwAlien] [kwAlien] =
      jsRound (min 45
        ((((((([kwAlien] : List TMDBKeyword).map (fun k => jsLower k.name)).dedup.filter
            (fun n => (([kwAlien] : List TMDBKeyword).map (fun k => jsLower k.name)).dedup.contains n)).length : ℚ) /
          (((([kwAlien] : List TMDBKeyword).map (fun k => jsLower k.name)).dedup.length +
            ([kwAlien] : List TMDBKeyword).length : ℕ) : ℚ)) * 25) +
        min 8 ((((([kwAlien] : List TMDBKeyword).map (fun k => jsLower k.name)).dedup.filter
            (fun n => (([kwAlien] : List TMDBKeyword).map (fun k => jsLower k.name)).dedup.contains n)).length : ℚ) * (3 / 2)) +
        min 8 ((((([kwAlien] : List TMDBKeyword).map (fun k => jsLower k.name)).dedup.filter
            (fun n => (([kwAlien] : List TMDBKeyword).map (fun k => jsLower k.name)).dedup.contains n)).length : ℚ) * 1) +
        (if ((([kwAlien] : List TMDBKeyword).map (fun k => jsLower k.name)).dedup.filter
            (fun n => (([kwAlien] : List TMDBKeyword).map (fun k => jsLower k.name)).dedup.contains n)).length =
            min ([kwAlien] : List TMDBKeyword).length ([kwAlien] : List TMDBKeyword).length then (4 : ℚ) else 0))) :=
  ⟨by norm_num,
    keyword_overlap_score_source_formula [kwAlien] [kwAlien] (by norm_num) (by norm_num)⟩

lemma alien_filter : (["alien"] : List String).filter
    (fun n => (["alien"] : List String).contains n) = ["alien"] := by decide

/-- C5 counterexample: with one identical curated keyword on each side
the source computes round(min(45, (1/2)*25 + 1.5 + 1 + 4)) = 19, while
the claimed formula (union denominator, no rounding) gives 31.5. -/
theorem keyword_overlap_score_counterexample :
    calculateKeywordSimilarityScore [kwAlien] [kwAlien] = 19 ∧
    specKeywordOverlapScore [kwAlien] [kwAlien] = 63 / 2 ∧
    ¬ ((19 : ℚ) = 63 / 2) := by
  refine ⟨?_, ?_, by norm_num⟩
  · rw [calculateKeywordSimilarityScore]
    rw [if_neg (by norm_num)]
    dsimp only
    rw [kwAlien_names, alien_filter]
    rw [if_neg (by norm_num)]
    have hlens : ((["alien"] : List String).length : ℚ) = 1 := by norm_num
    have hlen2 : ((((["alien"] : List String).length +
        ([kwAlien] : List TMDBKeyword).length : ℕ)) : ℚ) = 2 := by norm_num [kwAlien]
    rw [if_pos (by norm_num)]
    have harith : ((["alien"] : List String).length : ℚ) /
        (((["alien"] : List String).length + ([kwAlien] : List TMDBKeyword).length : ℕ) : ℚ) * 25 +
        min 8 (((["alien"] : List String).length : ℚ) * (3 / 2)) +
        min 8 (((["alien"] : List String).length : ℚ) * 1) + 4 = 19 := by
      norm_num [min_def, kwAlien]
    rw [harith]
    have hm : min (45 : ℚ) 19 = 19 := by norm_num
    rw [hm]
    have h19 : (19 : ℚ) = ((19 : ℤ) : ℚ) := by norm_num
    rw [h19, jsRound_intCast]
  · rw [specKeywordOverlapScore]
    rw [if_neg (by norm_num)]
    dsimp only
    rw [kwAlien_names, alien_filter]
    have hunion : ((["alien"] : List String) ++ ["alien"]).dedup = ["alien"] := by decide
    rw [hunion]
    rw [if_pos (by norm_num)]
    norm_num [min_def]

/- ---------------------------------------------------------------------
   C9 — empty-embedding fallback of getSemanticSimilarity
--------------------------------------------------------------------- -/

/-- C9: whenever the embedding oracle returns an empty vector for
either text, getSemanticSimilarity is exactly the pure lexical keyword
similarity — hence independent of the embedding oracle under that
condition, so identical inputs give identical results. -/
theorem semanticSimilarity_empty_embedding_is_lexical
    (embed : String → List ℝ) (textA textB : String)
    (h : (embed textA).length = 0 ∨ (embed textB).length = 0) :
    getSemanticSimilarity embed textA textB = ((getKeywordSimilarity textA textB : ℚ) : ℝ) ∧
    ∀ embed2 : String → List ℝ,
      ((embed2 textA).length = 0 ∨ (embed2 textB).length = 0) →
      getSemanticSimilarity embed2 textA textB = getSemanticSimilarity embed textA textB := by
  have key : ∀ e : String → List ℝ,
      ((e textA).length = 0 ∨ (e textB).length = 0) →
      getSemanticSimilarity e textA textB = ((getKeywordSimilarity textA textB : ℚ) : ℝ) := by
    intro e he
    simp only [getSemanticSimilarity, if_pos he]
  exact ⟨key embed h, fun embed2 h2 => (key embed2 h2).trans (key embed h).symm⟩

/-- Witness for C9 at a concrete always-empty embedding oracle. -/
theorem semanticSimilarity_empty_embedding_is_lexical_witness :
    (((fun (_ : String) => ([] : List ℝ)) "alpha").length = 0 ∨
      ((fun (_ : String) => ([] : List ℝ)) "beta").length = 0) ∧
    getSemanticSimilarity (fun _ => []) "alpha" "beta" =
      ((getKeywordSimilarity "alpha" "beta" : ℚ) : ℝ) :=
  ⟨Or.inl rfl,
    (semanticSimilarity_empty_embedding_is_lexical (fun _ => []) "alpha" "beta"
      (Or.inl rfl)).1⟩

/- ---------------------------------------------------------------------
   C10 — neutral/neutral tone pairs get the full 20 points
--------------------------------------------------------------------- -/

/-- A seed whose text classifies as serious (contains "dark"). -/
def darkSeedItem : TMDBItem := { id := 20, overview := "a dark tale", media_type := .movie }

/-- A candidate whose overview classifies as serious (contains "gritty"). -/
def grittyCandidateItem : TMDBItem := { id := 21, overview := "gritty story", media_type := .movie }

/-- C10: when both texts match no tone keyword (both classify neutral),
calculateToneScore returns the full 20 points — the same value a
genuinely matching non-neutral pair (here serious/serious) receives. -/
theorem toneScore_neutral_pair_full_score
    (seedItem candidateItem : TMDBItem)
    (hs : classifyTone (jsLower (seedItem.overview ++ " " ++ seedItem.tagline.getD "")) =
      Tone.neutral)
    (hc : classifyTone (jsLower candidateItem.overview) = Tone.neutral) :
    calculateToneScore seedItem candidateItem = 20 ∧
    calculateToneScore darkSeedItem grittyCandidateItem = 20 := by
  constructor
  · simp [calculateToneScore, hs, hc]
  · decide

/-- A seed with a tone-keyword-free text. -/
def neutralSeedItem : TMDBItem := { id := 10, overview := "zzz", media_type := .movie }

/-- A candidate with a tone-keyword-free overview. -/
def neutralCandidateItem : TMDBItem := { id := 11, overview := "qqq", media_type := .movie }

/-- Witness for C10 at concrete neutral texts. -/
theorem toneScore_neutral_pair_full_score_witness :
    classifyTone (jsLower (neutralSeedItem.overview ++ " " ++ neutralSeedItem.tagline.getD "")) =
      Tone.neutral ∧
    classifyTone (jsLower neutralCandidateItem.overview) = Tone.neutral ∧
    calculateToneScore neutralSeedItem neutralCandidateItem = 20 :=
  ⟨by decide, by decide,
    (toneScore_neutral_pair_full_score neutralSeedItem neutralCandidateItem
      (by decide) (by decide)).1⟩

end SeedToStream
